import Mathlib

/-! Supervisory control of the multi-phase PCCM buck converter

A shallow embedding of the interrupt handlers of `main.c` and of the
protection callbacks of `buck_protection.h`.

* The C globals (`buck_state`, the four `*_avg` averages, the four `*_adc_res`
  readings, `soft_start_compare_value`) are the fields of `Controller`.
* The peripherals the handlers drive are the fields of `Hardware`; each driver
  call of the source is the update of the field it writes.
* `float32_t` values are rationals: the filter is taken in exact arithmetic.
* `uint32_t` values are naturals reduced modulo `2 ^ 32` where the source adds.
* A handler that stops at `CY_ASSERT(0)` returns `none`: the assertion halts,
  as it does in a build with assertions on and as section 7 of the
  specification prescribes.
* Each handler runs to completion; the acknowledgement of its own interrupt
  request (`Cy_TCPWM_ClearInterrupt`, `Cy_GPIO_ClearInterrupt`) is not part of
  the state.
* Values the source obtains from generated code (ADC results, the results of
  `BUCK1_enable` / `BUCK1_start` / `BUCK1_disable`, the two flags of
  `BUCK1_get_state`, the limits `BUCK1_*_MIN` / `BUCK1_*_MAX`, the configured
  `compare0` of both phases) are parameters of the handlers.
-/

namespace PccmBuck

/-! ## Data model -/

/-- The converter states, `typedef enum Ifx_buck_states` of `buck_protection.h`. -/
inductive Ifx_buck_states where
  | Ifx_BUCK_STATE_IDLE
  | Ifx_BUCK_STATE_RAMP
  | Ifx_BUCK_STATE_RUN
  | Ifx_BUCK_STATE_TEST
  | Ifx_BUCK_STATE_FAULT
deriving DecidableEq, Repr

open Ifx_buck_states

/-- Result code of a driver call (`cy_rslt_t`, an unsigned 32-bit value). -/
abbrev cy_rslt_t := Nat

/-- The success code `CY_RSLT_SUCCESS`. -/
def CY_RSLT_SUCCESS : cy_rslt_t := 0

/-- Number of samples of the moving average, `#define AVERAGING_SAMPLES (8U)`. -/
def AVERAGING_SAMPLES : Nat := 8

/-- ADC count of the nominal input voltage, `#define VIN_COUNT (1906)`. -/
def VIN_COUNT : Nat := 1906

/-- Compare value of the run LED when off, `#define CLR_LED (0)`. -/
def CLR_LED : Nat := 0

/-- Compare value of the run LED when on, `#define SET_LED (10000)`. -/
def SET_LED : Nat := 10000

/-- Compare value of the run LED when toggling, `#define TOGGLE_LED (5000)`. -/
def TOGGLE_LED : Nat := 5000

/-- Step of the soft start, `#define SOFT_START_COMPARE_VAL_STEP (2)`. -/
def SOFT_START_COMPARE_VAL_STEP : Nat := 2

/-- Number of values of a `uint32_t`. -/
def UINT32_RANGE : Nat := 2 ^ 32

/-- The protection limits `BUCK1_Vin_MIN`, `BUCK1_Vin_MAX`, `BUCK1_Iout1_MAX`,
`BUCK1_Iout2_MAX`, `BUCK1_Temp_MAX`; macros of the generated code, taken as a
parameter. -/
structure Thresholds where
  BUCK1_Vin_MIN : ℚ
  BUCK1_Vin_MAX : ℚ
  BUCK1_Iout1_MAX : ℚ
  BUCK1_Iout2_MAX : ℚ
  BUCK1_Temp_MAX : ℚ
deriving DecidableEq

/-- The configured final compare values `PWM_BUCK_1_config.compare0` and
`PWM_BUCK_2_config.compare0`; generated configuration, taken as a parameter. -/
structure PwmConfig where
  PWM_BUCK_1_compare0 : Nat
  PWM_BUCK_2_compare0 : Nat
deriving DecidableEq

/-- One acquisition: the values returned by `BUCK1_Vin_get_result`,
`BUCK1_Iout1_get_result`, `BUCK1_Iout2_get_result`, `BUCK1_Temp_get_result`. -/
structure AdcResults where
  Vin : ℚ
  Iout1 : ℚ
  Iout2 : ℚ
  Temp : ℚ
deriving DecidableEq

/-- Modelled from the spec: the drivers the handlers call are not part of the
sources; each field of this record of the peripherals is the capability of
section 6 of the specification that the driver call named next to it switches.

* `converter_enabled`: set by `BUCK1_enable`, cleared by `BUCK1_disable`.
* `converter_started`: set by `BUCK1_start`, cleared by `BUCK1_disable`.
* `vout_prot_enabled`: set by `BUCK1_Vout_prot_enable`.
* `pwm_load_running`: the load-transient pulse generator `PWM_LOAD`
  (`Cy_TCPWM_TriggerStart_Single` / `Cy_TCPWM_TriggerStopOrKill_Single`).
* `soft_start_counter_running`: the tick timer `SOFT_START_COUNTER`.
* `fault_led_pin`: level of the fault LED pin; the LED is lit when the pin is
  low (`Cy_GPIO_Clr` turns it on, `Cy_GPIO_Set` turns it off).
* `act_led_compare0`: compare value of `PWM_ACT_LED`, the run indicator.
* `pwm_buck_1_compare0`, `pwm_buck_2_compare0`: the value last commanded to
  each phase with `Cy_TCPWM_PWM_SetCompare0Val`.
* `button_irq_enabled`: `NVIC_EnableIRQ` / `NVIC_DisableIRQ` of the button. -/
structure Hardware where
  converter_enabled : Bool
  converter_started : Bool
  vout_prot_enabled : Bool
  pwm_load_running : Bool
  soft_start_counter_running : Bool
  fault_led_pin : Bool
  act_led_compare0 : Nat
  pwm_buck_1_compare0 : Nat
  pwm_buck_2_compare0 : Nat
  button_irq_enabled : Bool
deriving DecidableEq

/-- The shared controller context: the globals of `main.c` and the hardware. -/
structure Controller where
  buck1_iout1_adc_res : ℚ
  buck1_temp_adc_res : ℚ
  buck1_iout2_adc_res : ℚ
  buck1_iout1_avg : ℚ
  buck1_temp_avg : ℚ
  buck1_iout2_avg : ℚ
  vin_adc_res : ℚ
  vin_avg : ℚ
  soft_start_compare_value : Nat
  buck_state : Ifx_buck_states
  hw : Hardware
deriving DecidableEq

/-- The state after `main` has initialised the board: the initialisers of the
globals, the button interrupt enabled by `hardware_init`, the fault LED off,
the run LED at `CLR_LED`, no timer started, the converter not enabled. -/
def initial_state (cfg : PwmConfig) : Controller where
  buck1_iout1_adc_res := 0
  buck1_temp_adc_res := 0
  buck1_iout2_adc_res := 0
  buck1_iout1_avg := 0
  buck1_temp_avg := 0
  buck1_iout2_avg := 0
  vin_adc_res := 0
  vin_avg := (VIN_COUNT : ℚ)
  soft_start_compare_value := 0
  buck_state := Ifx_BUCK_STATE_IDLE
  hw :=
    { converter_enabled := false
      converter_started := false
      vout_prot_enabled := false
      pwm_load_running := false
      soft_start_counter_running := false
      fault_led_pin := true
      act_led_compare0 := CLR_LED
      pwm_buck_1_compare0 := cfg.PWM_BUCK_1_compare0
      pwm_buck_2_compare0 := cfg.PWM_BUCK_2_compare0
      button_irq_enabled := true }

/-! ## `buck_protection.h` -/

/-- The body of `fault_processing`: a failed `BUCK1_disable` stops at
`CY_ASSERT(0)`; otherwise the converter is disabled, the transient pulses are
stopped, the fault LED is turned on, the run LED is stopped, the button
interrupt is enabled and the state becomes `Ifx_BUCK_STATE_FAULT`. -/
def fault_processing (disable_result : cy_rslt_t) (s : Controller) : Option Controller :=
  if disable_result ≠ CY_RSLT_SUCCESS then none
  else
    some { s with
      hw := { s.hw with
        converter_enabled := false
        converter_started := false
        pwm_load_running := false
        fault_led_pin := false
        act_led_compare0 := CLR_LED
        button_irq_enabled := true }
      buck_state := Ifx_BUCK_STATE_FAULT }

/-- The hardware fault callback `buck1_fault_callback`. -/
def buck1_fault_callback (disable_result : cy_rslt_t) (s : Controller) : Option Controller :=
  fault_processing disable_result s

/-- One update of the moving average, the expression
`avg - ((avg - res) / AVERAGING_SAMPLES)` of `buck1_scheduled_adc_callback`. -/
def moving_average (avg res : ℚ) : ℚ :=
  avg - (avg - res) / (AVERAGING_SAMPLES : ℚ)

/-- The first half of `buck1_scheduled_adc_callback`: the four readings are
stored and the four averages updated. -/
def adc_update (r : AdcResults) (s : Controller) : Controller :=
  { s with
    vin_adc_res := r.Vin
    buck1_iout1_adc_res := r.Iout1
    buck1_iout2_adc_res := r.Iout2
    buck1_temp_adc_res := r.Temp
    buck1_iout1_avg := moving_average s.buck1_iout1_avg r.Iout1
    buck1_iout2_avg := moving_average s.buck1_iout2_avg r.Iout2
    buck1_temp_avg := moving_average s.buck1_temp_avg r.Temp
    vin_avg := moving_average s.vin_avg r.Vin }

/-- The range check of `buck1_scheduled_adc_callback` on the stored averages. -/
def out_of_range (thr : Thresholds) (s : Controller) : Bool :=
  decide (s.vin_avg < thr.BUCK1_Vin_MIN) || decide (s.vin_avg > thr.BUCK1_Vin_MAX) ||
    decide (s.buck1_iout1_avg > thr.BUCK1_Iout1_MAX) ||
    decide (s.buck1_iout2_avg > thr.BUCK1_Iout2_MAX) ||
    decide (s.buck1_temp_avg > thr.BUCK1_Temp_MAX)

/-- The callback `buck1_scheduled_adc_callback`: update, then fault processing
when an average is out of range. -/
def buck1_scheduled_adc_callback (thr : Thresholds) (r : AdcResults)
    (disable_result : cy_rslt_t) (s : Controller) : Option Controller :=
  let s1 := adc_update r s
  if out_of_range thr s1 then fault_processing disable_result s1 else some s1

/-! ## `main.c` -/

/-- The handler `soft_start_prot_intr_handler`. `run_flag` and `ramp_flag` are
the values of `BUCK1_get_state(MTB_PWRCONV_STATE_RUN)` and
`BUCK1_get_state(MTB_PWRCONV_STATE_RAMP)`. The calls `BUCK1_ramp` and
`BUCK1_scheduled_adc_trigger` act inside the converter middleware and on the
ADC; the acquisition they start is delivered as a separate callback. -/
def soft_start_prot_intr_handler (cfg : PwmConfig) (run_flag ramp_flag : Nat)
    (s : Controller) : Controller :=
  if s.buck_state = Ifx_BUCK_STATE_RAMP then
    let v := (s.soft_start_compare_value + SOFT_START_COMPARE_VAL_STEP) % UINT32_RANGE
    let s1 : Controller :=
      { s with
        soft_start_compare_value := v
        hw := { s.hw with pwm_buck_1_compare0 := v, pwm_buck_2_compare0 := v } }
    if run_flag ≠ 0 ∧ ramp_flag = 0 then
      { s1 with
        buck_state := Ifx_BUCK_STATE_RUN
        hw := { s1.hw with
          vout_prot_enabled := true
          button_irq_enabled := true
          pwm_buck_1_compare0 := cfg.PWM_BUCK_1_compare0
          pwm_buck_2_compare0 := cfg.PWM_BUCK_2_compare0 } }
    else s1
  else s

/-- The handler `button_press_intr_handler`. The three results are those of
`BUCK1_enable`, `BUCK1_start` and `BUCK1_disable`; a failed call stops at
`CY_ASSERT(0)`. The enum has no `case` for `Ifx_BUCK_STATE_RAMP`, which takes
the `default` branch. -/
def button_press_intr_handler (enable_result start_result disable_result : cy_rslt_t)
    (s : Controller) : Option Controller :=
  match s.buck_state with
  | Ifx_BUCK_STATE_IDLE =>
    if enable_result ≠ CY_RSLT_SUCCESS then none
    else if start_result ≠ CY_RSLT_SUCCESS then none
    else
      some { s with
        buck1_iout1_adc_res := 0
        buck1_iout2_adc_res := 0
        buck1_temp_adc_res := 0
        buck1_iout1_avg := 0
        buck1_iout2_avg := 0
        buck1_temp_avg := 0
        vin_avg := (VIN_COUNT : ℚ)
        soft_start_compare_value := 0
        hw := { s.hw with
          pwm_buck_1_compare0 := 0
          pwm_buck_2_compare0 := 0
          converter_enabled := true
          converter_started := true
          button_irq_enabled := false
          act_led_compare0 := SET_LED
          fault_led_pin := true
          soft_start_counter_running := true }
        buck_state := Ifx_BUCK_STATE_RAMP }
  | Ifx_BUCK_STATE_RUN =>
    some { s with
      hw := { s.hw with pwm_load_running := true, act_led_compare0 := TOGGLE_LED }
      buck_state := Ifx_BUCK_STATE_TEST }
  | Ifx_BUCK_STATE_TEST =>
    if disable_result ≠ CY_RSLT_SUCCESS then none
    else
      some { s with
        hw := { s.hw with
          act_led_compare0 := CLR_LED
          pwm_load_running := false
          converter_enabled := false
          converter_started := false
          soft_start_counter_running := false }
        buck_state := Ifx_BUCK_STATE_IDLE }
  | Ifx_BUCK_STATE_FAULT =>
    some { s with
      hw := { s.hw with fault_led_pin := true }
      buck_state := Ifx_BUCK_STATE_IDLE }
  | _ => some { s with buck_state := Ifx_BUCK_STATE_IDLE }

/-! ## Sequences of handler invocations -/

/-- An interrupt delivered to the controller, with the values the handler
obtains from the drivers while it runs. -/
inductive Event where
  | tick (run_flag ramp_flag : Nat)
  | adc (r : AdcResults) (disable_result : cy_rslt_t)
  | fault (disable_result : cy_rslt_t)
  | button (enable_result start_result disable_result : cy_rslt_t)
deriving DecidableEq

/-- One handler run to completion. The result is `none` when the handler stops
at `CY_ASSERT(0)`, and for a button press while the button interrupt is
disabled in the NVIC, which is not delivered. -/
def deliver (thr : Thresholds) (cfg : PwmConfig) (ev : Event) (s : Controller) :
    Option Controller :=
  match ev with
  | Event.tick run_flag ramp_flag => some (soft_start_prot_intr_handler cfg run_flag ramp_flag s)
  | Event.adc r disable_result => buck1_scheduled_adc_callback thr r disable_result s
  | Event.fault disable_result => buck1_fault_callback disable_result s
  | Event.button enable_result start_result disable_result =>
    if s.hw.button_irq_enabled then
      button_press_intr_handler enable_result start_result disable_result s
    else none

/-- The states the controller can be in after `main` has initialised it. -/
inductive Reachable (thr : Thresholds) (cfg : PwmConfig) : Controller → Prop where
  | init : Reachable thr cfg (initial_state cfg)
  | step {s s1 : Controller} (ev : Event) :
      Reachable thr cfg s → deliver thr cfg ev s = some s1 → Reachable thr cfg s1

/-- Consecutive runs of `soft_start_prot_intr_handler`, one per pair of status
flags, first pair first. -/
def ramp_ticks (cfg : PwmConfig) : List (Nat × Nat) → Controller → Controller
  | [], s => s
  | (run_flag, ramp_flag) :: rest, s =>
    ramp_ticks cfg rest (soft_start_prot_intr_handler cfg run_flag ramp_flag s)

/-- The filter as the specification words it: `a + (s - a) / N` applied to
each sample in turn, starting from `a0`. -/
def ema_spec (N : ℚ) (a0 : ℚ) : List ℚ → ℚ
  | [] => a0
  | x :: rest => ema_spec N (a0 + (x - a0) / N) rest

/-- The status flags report convergence: running and no longer ramping. -/
def converged (run_flag ramp_flag : Nat) : Prop :=
  run_flag ≠ 0 ∧ ramp_flag = 0

instance (run_flag ramp_flag : Nat) : Decidable (converged run_flag ramp_flag) := by
  unfold converged; infer_instance

/-- The fields of the controller outside the state variable and the hardware:
the readings, the averages and the ramp reference. -/
def same_data (s s1 : Controller) : Prop :=
  s1.buck1_iout1_adc_res = s.buck1_iout1_adc_res ∧
  s1.buck1_temp_adc_res = s.buck1_temp_adc_res ∧
  s1.buck1_iout2_adc_res = s.buck1_iout2_adc_res ∧
  s1.vin_adc_res = s.vin_adc_res ∧
  s1.buck1_iout1_avg = s.buck1_iout1_avg ∧
  s1.buck1_temp_avg = s.buck1_temp_avg ∧
  s1.buck1_iout2_avg = s.buck1_iout2_avg ∧
  s1.vin_avg = s.vin_avg ∧
  s1.soft_start_compare_value = s.soft_start_compare_value

/-- The invariant of the reachable states: the button interrupt is disabled
exactly in `Ifx_BUCK_STATE_RAMP`, and the converter is enabled, and started,
exactly in `Ifx_BUCK_STATE_RAMP`, `Ifx_BUCK_STATE_RUN` and
`Ifx_BUCK_STATE_TEST`. -/
def consistent (s : Controller) : Prop :=
  (s.hw.button_irq_enabled = false ↔ s.buck_state = Ifx_BUCK_STATE_RAMP) ∧
  (s.hw.converter_enabled = true ↔
    (s.buck_state = Ifx_BUCK_STATE_RAMP ∨ s.buck_state = Ifx_BUCK_STATE_RUN ∨
      s.buck_state = Ifx_BUCK_STATE_TEST)) ∧
  s.hw.converter_started = s.hw.converter_enabled

/-- The four stored averages of `s1` are those of `s`. -/
def same_averages (s s1 : Controller) : Prop :=
  s1.vin_avg = s.vin_avg ∧ s1.buck1_iout1_avg = s.buck1_iout1_avg ∧
  s1.buck1_iout2_avg = s.buck1_iout2_avg ∧ s1.buck1_temp_avg = s.buck1_temp_avg

/-- The four stored averages have their primed values: `VIN_COUNT = 1906` for
the input voltage, `0` for both currents and the temperature. -/
def primed_averages (s : Controller) : Prop :=
  s.vin_avg = 1906 ∧ s.buck1_iout1_avg = 0 ∧ s.buck1_iout2_avg = 0 ∧ s.buck1_temp_avg = 0

/-- The four stored averages of `s1` are those of `s` after one filter update
with the acquisition `r`. -/
def updated_averages (r : AdcResults) (s s1 : Controller) : Prop :=
  s1.vin_avg = moving_average s.vin_avg r.Vin ∧
  s1.buck1_iout1_avg = moving_average s.buck1_iout1_avg r.Iout1 ∧
  s1.buck1_iout2_avg = moving_average s.buck1_iout2_avg r.Iout2 ∧
  s1.buck1_temp_avg = moving_average s.buck1_temp_avg r.Temp

/-- C1: whenever `BUCK1_disable` succeeds, `fault_processing` (and with it the
hardware fault callback) returns a state with the converter disabled, the load
pulses stopped, the fault LED lit, the run LED at `CLR_LED`, the button
interrupt enabled and the state `Ifx_BUCK_STATE_FAULT`, whatever the state
before was. -/
theorem fault_processing_post (s : Controller) (disable_result : cy_rslt_t)
    (h : disable_result = CY_RSLT_SUCCESS) :
    ∃ s1, fault_processing disable_result s = some s1 ∧
      buck1_fault_callback disable_result s = some s1 ∧
      s1.hw.converter_enabled = false ∧ s1.hw.converter_started = false ∧
      s1.hw.pwm_load_running = false ∧
      s1.hw.fault_led_pin = false ∧
      s1.hw.act_led_compare0 = CLR_LED ∧
      s1.hw.button_irq_enabled = true ∧
      s1.buck_state = Ifx_BUCK_STATE_FAULT := by
  subst h
  exact ⟨_, rfl, rfl, rfl, rfl, rfl, rfl, rfl, rfl, rfl⟩

/-- C1 at the initial state with a successful disable call. -/
theorem fault_processing_post_witness :
    (0 : cy_rslt_t) = CY_RSLT_SUCCESS ∧
    ∃ s1, fault_processing 0 (initial_state ⟨100, 100⟩) = some s1 ∧
      buck1_fault_callback 0 (initial_state ⟨100, 100⟩) = some s1 ∧
      s1.hw.converter_enabled = false ∧ s1.hw.converter_started = false ∧
      s1.hw.pwm_load_running = false ∧
      s1.hw.fault_led_pin = false ∧
      s1.hw.act_led_compare0 = CLR_LED ∧
      s1.hw.button_irq_enabled = true ∧
      s1.buck_state = Ifx_BUCK_STATE_FAULT :=
  ⟨rfl, fault_processing_post (initial_state ⟨100, 100⟩) 0 rfl⟩

/-- The range check as the five conditions of the source. -/
theorem out_of_range_iff (thr : Thresholds) (s : Controller) :
    out_of_range thr s = true ↔
      (s.vin_avg < thr.BUCK1_Vin_MIN ∨ s.vin_avg > thr.BUCK1_Vin_MAX ∨
        s.buck1_iout1_avg > thr.BUCK1_Iout1_MAX ∨
        s.buck1_iout2_avg > thr.BUCK1_Iout2_MAX ∨
        s.buck1_temp_avg > thr.BUCK1_Temp_MAX) := by
  simp [out_of_range, or_assoc]

/-- C2: `buck1_scheduled_adc_callback` first updates the four averages. If the
updated input-voltage average is below its minimum or above its maximum, or an
updated current or temperature average is above its maximum, the callback ends
as `fault_processing` does on the updated state: with a successful disable
call it returns in `Ifx_BUCK_STATE_FAULT` with the converter disabled. If none
of the five conditions holds it returns the updated state, in which the state
variable and the whole hardware (output enable, LEDs, pulse generator, button
enable) are unchanged. -/
theorem adc_callback_threshold_trip (thr : Thresholds) (r : AdcResults)
    (disable_result : cy_rslt_t) (s : Controller) :
    ((adc_update r s).vin_avg = moving_average s.vin_avg r.Vin ∧
      (adc_update r s).buck1_iout1_avg = moving_average s.buck1_iout1_avg r.Iout1 ∧
      (adc_update r s).buck1_iout2_avg = moving_average s.buck1_iout2_avg r.Iout2 ∧
      (adc_update r s).buck1_temp_avg = moving_average s.buck1_temp_avg r.Temp) ∧
    (((adc_update r s).vin_avg < thr.BUCK1_Vin_MIN ∨
        (adc_update r s).vin_avg > thr.BUCK1_Vin_MAX ∨
        (adc_update r s).buck1_iout1_avg > thr.BUCK1_Iout1_MAX ∨
        (adc_update r s).buck1_iout2_avg > thr.BUCK1_Iout2_MAX ∨
        (adc_update r s).buck1_temp_avg > thr.BUCK1_Temp_MAX) →
      buck1_scheduled_adc_callback thr r disable_result s =
        fault_processing disable_result (adc_update r s) ∧
      (disable_result = CY_RSLT_SUCCESS →
        ∃ s1, buck1_scheduled_adc_callback thr r disable_result s = some s1 ∧
          s1.buck_state = Ifx_BUCK_STATE_FAULT ∧
          s1.hw.converter_enabled = false ∧ s1.hw.converter_started = false ∧
          s1.vin_avg = moving_average s.vin_avg r.Vin ∧
          s1.buck1_iout1_avg = moving_average s.buck1_iout1_avg r.Iout1 ∧
          s1.buck1_iout2_avg = moving_average s.buck1_iout2_avg r.Iout2 ∧
          s1.buck1_temp_avg = moving_average s.buck1_temp_avg r.Temp)) ∧
    (¬ ((adc_update r s).vin_avg < thr.BUCK1_Vin_MIN ∨
        (adc_update r s).vin_avg > thr.BUCK1_Vin_MAX ∨
        (adc_update r s).buck1_iout1_avg > thr.BUCK1_Iout1_MAX ∨
        (adc_update r s).buck1_iout2_avg > thr.BUCK1_Iout2_MAX ∨
        (adc_update r s).buck1_temp_avg > thr.BUCK1_Temp_MAX) →
      buck1_scheduled_adc_callback thr r disable_result s = some (adc_update r s) ∧
      (adc_update r s).buck_state = s.buck_state ∧
      (adc_update r s).hw = s.hw) := by
  refine ⟨⟨rfl, rfl, rfl, rfl⟩, ?_, ?_⟩
  · intro h
    have ht : out_of_range thr (adc_update r s) = true := (out_of_range_iff thr _).2 h
    have hc : buck1_scheduled_adc_callback thr r disable_result s =
        fault_processing disable_result (adc_update r s) := by
      simp [buck1_scheduled_adc_callback, ht]
    refine ⟨hc, ?_⟩
    intro hd
    subst hd
    rw [hc]
    exact ⟨_, rfl, rfl, rfl, rfl, rfl, rfl, rfl, rfl⟩
  · intro h
    have ht : out_of_range thr (adc_update r s) = false := by
      cases hb : out_of_range thr (adc_update r s)
      · rfl
      · exact absurd ((out_of_range_iff thr _).1 hb) h
    refine ⟨?_, rfl, rfl⟩
    simp [buck1_scheduled_adc_callback, ht]

/-- C2 from the initial state with limits `1000 .. 3000` on the input voltage:
an input-voltage reading of `20000` trips, a reading of `2000` does not. -/
theorem adc_callback_threshold_trip_witness :
    (∃ s1, buck1_scheduled_adc_callback ⟨1000, 3000, 2000, 2000, 2000⟩ ⟨20000, 8, 16, 24⟩ 0
        (initial_state ⟨100, 100⟩) = some s1 ∧
      s1.buck_state = Ifx_BUCK_STATE_FAULT ∧ s1.hw.converter_enabled = false) ∧
    buck1_scheduled_adc_callback ⟨1000, 3000, 2000, 2000, 2000⟩ ⟨2000, 8, 16, 24⟩ 0
        (initial_state ⟨100, 100⟩) =
      some (adc_update ⟨2000, 8, 16, 24⟩ (initial_state ⟨100, 100⟩)) := by
  have hhi : (adc_update ⟨20000, 8, 16, 24⟩ (initial_state ⟨100, 100⟩)).vin_avg >
      (3000 : ℚ) := by
    norm_num [adc_update, moving_average, initial_state, VIN_COUNT, AVERAGING_SAMPLES]
  have hok : ¬ ((adc_update ⟨2000, 8, 16, 24⟩ (initial_state ⟨100, 100⟩)).vin_avg < (1000 : ℚ) ∨
      (adc_update ⟨2000, 8, 16, 24⟩ (initial_state ⟨100, 100⟩)).vin_avg > (3000 : ℚ) ∨
      (adc_update ⟨2000, 8, 16, 24⟩ (initial_state ⟨100, 100⟩)).buck1_iout1_avg > (2000 : ℚ) ∨
      (adc_update ⟨2000, 8, 16, 24⟩ (initial_state ⟨100, 100⟩)).buck1_iout2_avg > (2000 : ℚ) ∨
      (adc_update ⟨2000, 8, 16, 24⟩ (initial_state ⟨100, 100⟩)).buck1_temp_avg >
        (2000 : ℚ)) := by
    norm_num [adc_update, moving_average, initial_state, VIN_COUNT, AVERAGING_SAMPLES]
  obtain ⟨s1, h, hf, he, -⟩ :=
    ((adc_callback_threshold_trip ⟨1000, 3000, 2000, 2000, 2000⟩ ⟨20000, 8, 16, 24⟩ 0
      (initial_state ⟨100, 100⟩)).2.1 (Or.inr (Or.inl hhi))).2 rfl
  exact ⟨⟨s1, h, hf, he⟩,
    ((adc_callback_threshold_trip ⟨1000, 3000, 2000, 2000, 2000⟩ ⟨2000, 8, 16, 24⟩ 0
      (initial_state ⟨100, 100⟩)).2.2 hok).1⟩

/-! ## The button handler -/

/-- C3: a button press in `Ifx_BUCK_STATE_RUN` gives `Ifx_BUCK_STATE_TEST` with
the load pulse generator started and the run LED at `TOGGLE_LED`; in
`Ifx_BUCK_STATE_TEST`, when `BUCK1_disable` succeeds, it gives
`Ifx_BUCK_STATE_IDLE` with the run LED at `CLR_LED`, the load pulses stopped,
the converter disabled and the soft-start timer stopped; in
`Ifx_BUCK_STATE_FAULT` it gives `Ifx_BUCK_STATE_IDLE` with the fault LED off.
Every other field of the hardware, the readings, the averages and the ramp
reference are as before in all three rows. -/
theorem button_press_run_test_fault (enable_result start_result disable_result : cy_rslt_t)
    (s : Controller) :
    (s.buck_state = Ifx_BUCK_STATE_RUN →
      ∃ s1, button_press_intr_handler enable_result start_result disable_result s = some s1 ∧
        s1.buck_state = Ifx_BUCK_STATE_TEST ∧
        s1.hw.pwm_load_running = true ∧
        s1.hw.act_led_compare0 = TOGGLE_LED ∧
        s1.hw.converter_enabled = s.hw.converter_enabled ∧
        s1.hw.converter_started = s.hw.converter_started ∧
        s1.hw.vout_prot_enabled = s.hw.vout_prot_enabled ∧
        s1.hw.soft_start_counter_running = s.hw.soft_start_counter_running ∧
        s1.hw.fault_led_pin = s.hw.fault_led_pin ∧
        s1.hw.pwm_buck_1_compare0 = s.hw.pwm_buck_1_compare0 ∧
        s1.hw.pwm_buck_2_compare0 = s.hw.pwm_buck_2_compare0 ∧
        s1.hw.button_irq_enabled = s.hw.button_irq_enabled ∧
        same_data s s1) ∧
    (s.buck_state = Ifx_BUCK_STATE_TEST → disable_result = CY_RSLT_SUCCESS →
      ∃ s1, button_press_intr_handler enable_result start_result disable_result s = some s1 ∧
        s1.buck_state = Ifx_BUCK_STATE_IDLE ∧
        s1.hw.act_led_compare0 = CLR_LED ∧
        s1.hw.pwm_load_running = false ∧
        s1.hw.converter_enabled = false ∧ s1.hw.converter_started = false ∧
        s1.hw.soft_start_counter_running = false ∧
        s1.hw.vout_prot_enabled = s.hw.vout_prot_enabled ∧
        s1.hw.fault_led_pin = s.hw.fault_led_pin ∧
        s1.hw.pwm_buck_1_compare0 = s.hw.pwm_buck_1_compare0 ∧
        s1.hw.pwm_buck_2_compare0 = s.hw.pwm_buck_2_compare0 ∧
        s1.hw.button_irq_enabled = s.hw.button_irq_enabled ∧
        same_data s s1) ∧
    (s.buck_state = Ifx_BUCK_STATE_FAULT →
      ∃ s1, button_press_intr_handler enable_result start_result disable_result s = some s1 ∧
        s1.buck_state = Ifx_BUCK_STATE_IDLE ∧
        s1.hw.fault_led_pin = true ∧
        s1.hw.converter_enabled = s.hw.converter_enabled ∧
        s1.hw.converter_started = s.hw.converter_started ∧
        s1.hw.vout_prot_enabled = s.hw.vout_prot_enabled ∧
        s1.hw.pwm_load_running = s.hw.pwm_load_running ∧
        s1.hw.soft_start_counter_running = s.hw.soft_start_counter_running ∧
        s1.hw.act_led_compare0 = s.hw.act_led_compare0 ∧
        s1.hw.pwm_buck_1_compare0 = s.hw.pwm_buck_1_compare0 ∧
        s1.hw.pwm_buck_2_compare0 = s.hw.pwm_buck_2_compare0 ∧
        s1.hw.button_irq_enabled = s.hw.button_irq_enabled ∧
        same_data s s1) := by
  refine ⟨?_, ?_, ?_⟩
  · intro h
    simp [button_press_intr_handler, h, same_data]
  · intro h hd
    subst hd
    simp [button_press_intr_handler, h, same_data]
  · intro h
    simp [button_press_intr_handler, h, same_data]

/-- C3 on the initial state put in each of the three states. -/
theorem button_press_run_test_fault_witness :
    (∃ s1, button_press_intr_handler 0 0 0
        { initial_state ⟨100, 100⟩ with buck_state := Ifx_BUCK_STATE_RUN } = some s1 ∧
      s1.buck_state = Ifx_BUCK_STATE_TEST) ∧
    (∃ s1, button_press_intr_handler 0 0 0
        { initial_state ⟨100, 100⟩ with buck_state := Ifx_BUCK_STATE_TEST } = some s1 ∧
      s1.buck_state = Ifx_BUCK_STATE_IDLE) ∧
    (∃ s1, button_press_intr_handler 0 0 0
        { initial_state ⟨100, 100⟩ with buck_state := Ifx_BUCK_STATE_FAULT } = some s1 ∧
      s1.buck_state = Ifx_BUCK_STATE_IDLE) := by
  obtain ⟨a, ha, hat, -⟩ := (button_press_run_test_fault 0 0 0
    { initial_state ⟨100, 100⟩ with buck_state := Ifx_BUCK_STATE_RUN }).1 rfl
  obtain ⟨b, hb, hbt, -⟩ := (button_press_run_test_fault 0 0 0
    { initial_state ⟨100, 100⟩ with buck_state := Ifx_BUCK_STATE_TEST }).2.1 rfl rfl
  obtain ⟨c, hc, hct, -⟩ := (button_press_run_test_fault 0 0 0
    { initial_state ⟨100, 100⟩ with buck_state := Ifx_BUCK_STATE_FAULT }).2.2 rfl
  exact ⟨⟨a, ha, hat⟩, ⟨b, hb, hbt⟩, ⟨c, hc, hct⟩⟩

/-- C4: a button press in `Ifx_BUCK_STATE_IDLE` with successful `BUCK1_enable`
and `BUCK1_start` gives `Ifx_BUCK_STATE_RAMP` with the averages at their primed
values (`VIN_COUNT = 1906` for the input voltage, `0` for both currents and the
temperature), the ramp reference `0` and commanded to both phases, the
converter enabled and started, the button interrupt disabled, the run LED at
`SET_LED` and the fault LED off. -/
theorem button_press_idle (enable_result start_result disable_result : cy_rslt_t)
    (s : Controller) (hs : s.buck_state = Ifx_BUCK_STATE_IDLE)
    (he : enable_result = CY_RSLT_SUCCESS) (hst : start_result = CY_RSLT_SUCCESS) :
    ∃ s1, button_press_intr_handler enable_result start_result disable_result s = some s1 ∧
      s1.buck_state = Ifx_BUCK_STATE_RAMP ∧
      s1.vin_avg = (VIN_COUNT : ℚ) ∧ s1.vin_avg = 1906 ∧
      s1.buck1_iout1_avg = 0 ∧ s1.buck1_iout2_avg = 0 ∧ s1.buck1_temp_avg = 0 ∧
      s1.soft_start_compare_value = 0 ∧
      s1.hw.pwm_buck_1_compare0 = 0 ∧ s1.hw.pwm_buck_2_compare0 = 0 ∧
      s1.hw.converter_enabled = true ∧ s1.hw.converter_started = true ∧
      s1.hw.button_irq_enabled = false ∧
      s1.hw.act_led_compare0 = SET_LED ∧
      s1.hw.fault_led_pin = true := by
  subst he hst
  simp [button_press_intr_handler, hs, VIN_COUNT]

/-- C4 at the initial state. -/
theorem button_press_idle_witness :
    (initial_state ⟨100, 100⟩).buck_state = Ifx_BUCK_STATE_IDLE ∧
    (0 : cy_rslt_t) = CY_RSLT_SUCCESS ∧
    ∃ s1, button_press_intr_handler 0 0 0 (initial_state ⟨100, 100⟩) = some s1 ∧
      s1.buck_state = Ifx_BUCK_STATE_RAMP ∧
      s1.vin_avg = (VIN_COUNT : ℚ) ∧ s1.vin_avg = 1906 ∧
      s1.buck1_iout1_avg = 0 ∧ s1.buck1_iout2_avg = 0 ∧ s1.buck1_temp_avg = 0 ∧
      s1.soft_start_compare_value = 0 ∧
      s1.hw.pwm_buck_1_compare0 = 0 ∧ s1.hw.pwm_buck_2_compare0 = 0 ∧
      s1.hw.converter_enabled = true ∧ s1.hw.converter_started = true ∧
      s1.hw.button_irq_enabled = false ∧
      s1.hw.act_led_compare0 = SET_LED ∧
      s1.hw.fault_led_pin = true :=
  ⟨rfl, rfl, button_press_idle 0 0 0 (initial_state ⟨100, 100⟩) rfl rfl rfl⟩

/-! ## The soft-start ramp -/

/-- A tick in `Ifx_BUCK_STATE_RAMP` without convergence adds the step to the
ramp reference, modulo `2 ^ 32`, and commands it to both phases. -/
theorem tick_ramp_not_converged (cfg : PwmConfig) (run_flag ramp_flag : Nat) (s : Controller)
    (h : s.buck_state = Ifx_BUCK_STATE_RAMP) (hn : ¬ converged run_flag ramp_flag) :
    soft_start_prot_intr_handler cfg run_flag ramp_flag s =
      { s with
        soft_start_compare_value :=
          (s.soft_start_compare_value + SOFT_START_COMPARE_VAL_STEP) % UINT32_RANGE
        hw := { s.hw with
          pwm_buck_1_compare0 :=
            (s.soft_start_compare_value + SOFT_START_COMPARE_VAL_STEP) % UINT32_RANGE
          pwm_buck_2_compare0 :=
            (s.soft_start_compare_value + SOFT_START_COMPARE_VAL_STEP) % UINT32_RANGE } } := by
  unfold converged at hn
  simp only [soft_start_prot_intr_handler, h, if_true, if_neg hn]

/-- A tick in `Ifx_BUCK_STATE_RAMP` with convergence commands the configured
final compare values, enables the output-voltage protection and the button
interrupt, and enters `Ifx_BUCK_STATE_RUN`. -/
theorem tick_ramp_converged (cfg : PwmConfig) (run_flag ramp_flag : Nat) (s : Controller)
    (h : s.buck_state = Ifx_BUCK_STATE_RAMP) (hc : converged run_flag ramp_flag) :
    soft_start_prot_intr_handler cfg run_flag ramp_flag s =
      { s with
        soft_start_compare_value :=
          (s.soft_start_compare_value + SOFT_START_COMPARE_VAL_STEP) % UINT32_RANGE
        buck_state := Ifx_BUCK_STATE_RUN
        hw := { s.hw with
          vout_prot_enabled := true
          button_irq_enabled := true
          pwm_buck_1_compare0 := cfg.PWM_BUCK_1_compare0
          pwm_buck_2_compare0 := cfg.PWM_BUCK_2_compare0 } } := by
  unfold converged at hc
  simp only [soft_start_prot_intr_handler, h, if_true, if_pos hc]

/-- A tick outside `Ifx_BUCK_STATE_RAMP` changes nothing. -/
theorem tick_not_ramp (cfg : PwmConfig) (run_flag ramp_flag : Nat) (s : Controller)
    (h : s.buck_state ≠ Ifx_BUCK_STATE_RAMP) :
    soft_start_prot_intr_handler cfg run_flag ramp_flag s = s := by
  simp only [soft_start_prot_intr_handler, if_neg h]

/-- Ticks without convergence, from a ramping state whose reference is a
`uint32_t` value and is the value commanded to both phases: the state stays
`Ifx_BUCK_STATE_RAMP` and the reference has grown by one step per tick, modulo
`2 ^ 32`. -/
theorem ramp_ticks_not_converged (cfg : PwmConfig) (fl : List (Nat × Nat)) :
    ∀ s : Controller, s.buck_state = Ifx_BUCK_STATE_RAMP →
      s.hw.pwm_buck_1_compare0 = s.soft_start_compare_value →
      s.hw.pwm_buck_2_compare0 = s.soft_start_compare_value →
      s.soft_start_compare_value < UINT32_RANGE →
      (∀ p ∈ fl, ¬ converged p.1 p.2) →
      (ramp_ticks cfg fl s).buck_state = Ifx_BUCK_STATE_RAMP ∧
      (ramp_ticks cfg fl s).soft_start_compare_value =
        (s.soft_start_compare_value + fl.length * SOFT_START_COMPARE_VAL_STEP) % UINT32_RANGE ∧
      (ramp_ticks cfg fl s).hw.pwm_buck_1_compare0 =
        (ramp_ticks cfg fl s).soft_start_compare_value ∧
      (ramp_ticks cfg fl s).hw.pwm_buck_2_compare0 =
        (ramp_ticks cfg fl s).soft_start_compare_value := by
  induction fl with
  | nil =>
    intro s hs h1 h2 hlt _
    simp only [ramp_ticks, List.length_nil, Nat.zero_mul, Nat.add_zero]
    exact ⟨hs, (Nat.mod_eq_of_lt hlt).symm, h1, h2⟩
  | cons p rest ih =>
    intro s hs _ _ _ hn
    obtain ⟨run_flag, ramp_flag⟩ := p
    have hp : ¬ converged run_flag ramp_flag := hn (run_flag, ramp_flag) (List.mem_cons_self _ _)
    have hrest : ∀ q ∈ rest, ¬ converged q.1 q.2 := fun q hq => hn q (List.mem_cons_of_mem _ hq)
    have hstep := tick_ramp_not_converged cfg run_flag ramp_flag s hs hp
    have hR : 0 < UINT32_RANGE := by unfold UINT32_RANGE; norm_num
    have ih1 := ih (soft_start_prot_intr_handler cfg run_flag ramp_flag s)
      (by rw [hstep]; exact hs) (by rw [hstep]) (by rw [hstep])
      (by rw [hstep]; exact Nat.mod_lt _ hR) hrest
    simp only [ramp_ticks]
    refine ⟨ih1.1, ?_, ih1.2.2.1, ih1.2.2.2⟩
    rw [ih1.2.1, hstep]
    simp only [List.length_cons, Nat.mod_add_mod]
    congr 1
    ring

/-- The state after a button press in `Ifx_BUCK_STATE_IDLE`, as far as the ramp
needs it. -/
theorem button_press_idle_ramp_start (enable_result start_result disable_result : cy_rslt_t)
    (s0 s1 : Controller) (h0 : s0.buck_state = Ifx_BUCK_STATE_IDLE)
    (hb : button_press_intr_handler enable_result start_result disable_result s0 = some s1) :
    s1.buck_state = Ifx_BUCK_STATE_RAMP ∧ s1.soft_start_compare_value = 0 ∧
      s1.hw.pwm_buck_1_compare0 = 0 ∧ s1.hw.pwm_buck_2_compare0 = 0 ∧
      s1.hw.button_irq_enabled = false ∧ s1.hw.converter_enabled = true := by
  simp only [button_press_intr_handler, h0] at hb
  split_ifs at hb
  cases hb
  exact ⟨rfl, rfl, rfl, rfl, rfl, rfl⟩

/-- A button press in `Ifx_BUCK_STATE_IDLE` returns when `BUCK1_enable` and
`BUCK1_start` succeed. -/
theorem button_press_idle_returns (enable_result start_result disable_result : cy_rslt_t)
    (s : Controller) (hs : s.buck_state = Ifx_BUCK_STATE_IDLE)
    (he : enable_result = CY_RSLT_SUCCESS) (hst : start_result = CY_RSLT_SUCCESS) :
    ∃ s1, button_press_intr_handler enable_result start_result disable_result s = some s1 := by
  subst he hst
  simp [button_press_intr_handler, hs]

/-- C5, as amended: after the `Ifx_BUCK_STATE_IDLE` to `Ifx_BUCK_STATE_RAMP`
transition, `k` ticks without convergence leave the state ramping with the
reference, and the value commanded to both phases, equal to
`k * SOFT_START_COMPARE_VAL_STEP` modulo `2 ^ 32`, hence equal to
`k * SOFT_START_COMPARE_VAL_STEP` itself as long as that product is below
`2 ^ 32`; a tick that then reports convergence commands to each phase its
configured final compare value, whatever the stepped value was. -/
theorem ramp_reference_steps (cfg : PwmConfig)
    (enable_result start_result disable_result : cy_rslt_t) (s0 : Controller)
    (fl : List (Nat × Nat))
    (h0 : s0.buck_state = Ifx_BUCK_STATE_IDLE)
    (he : enable_result = CY_RSLT_SUCCESS) (hst : start_result = CY_RSLT_SUCCESS)
    (hn : ∀ p ∈ fl, ¬ converged p.1 p.2) :
    SOFT_START_COMPARE_VAL_STEP = 2 ∧
    ∃ s1, button_press_intr_handler enable_result start_result disable_result s0 = some s1 ∧
      (ramp_ticks cfg fl s1).buck_state = Ifx_BUCK_STATE_RAMP ∧
      (ramp_ticks cfg fl s1).soft_start_compare_value =
        (fl.length * SOFT_START_COMPARE_VAL_STEP) % 2 ^ 32 ∧
      (ramp_ticks cfg fl s1).hw.pwm_buck_1_compare0 =
        (fl.length * SOFT_START_COMPARE_VAL_STEP) % 2 ^ 32 ∧
      (ramp_ticks cfg fl s1).hw.pwm_buck_2_compare0 =
        (fl.length * SOFT_START_COMPARE_VAL_STEP) % 2 ^ 32 ∧
      (fl.length * SOFT_START_COMPARE_VAL_STEP < 2 ^ 32 →
        (ramp_ticks cfg fl s1).hw.pwm_buck_1_compare0 =
          fl.length * SOFT_START_COMPARE_VAL_STEP ∧
        (ramp_ticks cfg fl s1).hw.pwm_buck_2_compare0 =
          fl.length * SOFT_START_COMPARE_VAL_STEP) ∧
      ∀ run_flag ramp_flag : Nat, converged run_flag ramp_flag →
        (soft_start_prot_intr_handler cfg run_flag ramp_flag
            (ramp_ticks cfg fl s1)).hw.pwm_buck_1_compare0 = cfg.PWM_BUCK_1_compare0 ∧
        (soft_start_prot_intr_handler cfg run_flag ramp_flag
            (ramp_ticks cfg fl s1)).hw.pwm_buck_2_compare0 = cfg.PWM_BUCK_2_compare0 := by
  refine ⟨rfl, ?_⟩
  obtain ⟨s1, hb⟩ :=
    button_press_idle_returns enable_result start_result disable_result s0 h0 he hst
  obtain ⟨hr, hv, h1, h2, -, -⟩ :=
    button_press_idle_ramp_start enable_result start_result disable_result s0 s1 h0 hb
  have hR : (0 : Nat) < UINT32_RANGE := by unfold UINT32_RANGE; norm_num
  obtain ⟨kr, kv, k1, k2⟩ :=
    ramp_ticks_not_converged cfg fl s1 hr (h1.trans hv.symm) (h2.trans hv.symm)
      (by rw [hv]; exact hR) hn
  rw [hv, Nat.zero_add] at kv
  have kv2 : (ramp_ticks cfg fl s1).soft_start_compare_value =
      (fl.length * SOFT_START_COMPARE_VAL_STEP) % 2 ^ 32 := kv
  refine ⟨s1, hb, kr, kv2, k1.trans kv2, k2.trans kv2, ?_, ?_⟩
  · intro hlt
    exact ⟨(k1.trans kv2).trans (Nat.mod_eq_of_lt hlt), (k2.trans kv2).trans (Nat.mod_eq_of_lt hlt)⟩
  · intro run_flag ramp_flag hc
    rw [tick_ramp_converged cfg run_flag ramp_flag _ kr hc]
    exact ⟨rfl, rfl⟩

/-- C5 from the initial state, with three ticks that do not report convergence. -/
theorem ramp_reference_steps_witness :
    (initial_state ⟨100, 100⟩).buck_state = Ifx_BUCK_STATE_IDLE ∧
    (∀ p ∈ [((0 : Nat), (0 : Nat)), (1, 1), (0, 1)], ¬ converged p.1 p.2) ∧
    SOFT_START_COMPARE_VAL_STEP = 2 ∧
    ∃ s1, button_press_intr_handler 0 0 0 (initial_state ⟨100, 100⟩) = some s1 ∧
      (ramp_ticks ⟨100, 100⟩ [(0, 0), (1, 1), (0, 1)] s1).buck_state = Ifx_BUCK_STATE_RAMP ∧
      (ramp_ticks ⟨100, 100⟩ [(0, 0), (1, 1), (0, 1)] s1).soft_start_compare_value =
        ([((0 : Nat), (0 : Nat)), (1, 1), (0, 1)].length * SOFT_START_COMPARE_VAL_STEP) % 2 ^ 32 ∧
      (ramp_ticks ⟨100, 100⟩ [(0, 0), (1, 1), (0, 1)] s1).hw.pwm_buck_1_compare0 =
        ([((0 : Nat), (0 : Nat)), (1, 1), (0, 1)].length * SOFT_START_COMPARE_VAL_STEP) % 2 ^ 32 ∧
      (ramp_ticks ⟨100, 100⟩ [(0, 0), (1, 1), (0, 1)] s1).hw.pwm_buck_2_compare0 =
        ([((0 : Nat), (0 : Nat)), (1, 1), (0, 1)].length * SOFT_START_COMPARE_VAL_STEP) % 2 ^ 32 ∧
      ([((0 : Nat), (0 : Nat)), (1, 1), (0, 1)].length * SOFT_START_COMPARE_VAL_STEP < 2 ^ 32 →
        (ramp_ticks ⟨100, 100⟩ [(0, 0), (1, 1), (0, 1)] s1).hw.pwm_buck_1_compare0 =
          [((0 : Nat), (0 : Nat)), (1, 1), (0, 1)].length * SOFT_START_COMPARE_VAL_STEP ∧
        (ramp_ticks ⟨100, 100⟩ [(0, 0), (1, 1), (0, 1)] s1).hw.pwm_buck_2_compare0 =
          [((0 : Nat), (0 : Nat)), (1, 1), (0, 1)].length * SOFT_START_COMPARE_VAL_STEP) ∧
      ∀ run_flag ramp_flag : Nat, converged run_flag ramp_flag →
        (soft_start_prot_intr_handler ⟨100, 100⟩ run_flag ramp_flag
            (ramp_ticks ⟨100, 100⟩ [(0, 0), (1, 1), (0, 1)] s1)).hw.pwm_buck_1_compare0 = 100 ∧
        (soft_start_prot_intr_handler ⟨100, 100⟩ run_flag ramp_flag
            (ramp_ticks ⟨100, 100⟩ [(0, 0), (1, 1), (0, 1)] s1)).hw.pwm_buck_2_compare0 = 100 :=
  ⟨rfl, by decide,
    ramp_reference_steps ⟨100, 100⟩ 0 0 0 (initial_state ⟨100, 100⟩) [(0, 0), (1, 1), (0, 1)]
      rfl rfl rfl (by decide)⟩

/-- C5 as stated fails: from the initial state, after the button press and
`2 ^ 31` ticks without convergence, the value commanded to phase 1 is `0`, not
`2 ^ 31 * SOFT_START_COMPARE_VAL_STEP`. -/
theorem ramp_reference_wraps :
    ∃ s1, button_press_intr_handler 0 0 0 (initial_state ⟨100, 100⟩) = some s1 ∧
      (∀ p ∈ List.replicate (2 ^ 31) ((0 : Nat), (0 : Nat)), ¬ converged p.1 p.2) ∧
      (List.replicate (2 ^ 31) ((0 : Nat), (0 : Nat))).length = 2 ^ 31 ∧
      (ramp_ticks ⟨100, 100⟩ (List.replicate (2 ^ 31) (0, 0)) s1).buck_state =
        Ifx_BUCK_STATE_RAMP ∧
      (ramp_ticks ⟨100, 100⟩ (List.replicate (2 ^ 31) (0, 0)) s1).hw.pwm_buck_1_compare0 = 0 ∧
      (ramp_ticks ⟨100, 100⟩ (List.replicate (2 ^ 31) (0, 0)) s1).hw.pwm_buck_1_compare0 ≠
        2 ^ 31 * SOFT_START_COMPARE_VAL_STEP := by
  obtain ⟨s1, hb⟩ := button_press_idle_returns 0 0 0 (initial_state ⟨100, 100⟩) rfl rfl rfl
  obtain ⟨hr, hv, h1, h2, -, -⟩ :=
    button_press_idle_ramp_start 0 0 0 (initial_state ⟨100, 100⟩) s1 rfl hb
  have hn : ∀ p ∈ List.replicate (2 ^ 31) ((0 : Nat), (0 : Nat)), ¬ converged p.1 p.2 := by
    intro p hp
    rw [List.eq_of_mem_replicate hp]
    intro hc
    exact hc.1 rfl
  have hR : (0 : Nat) < UINT32_RANGE := by unfold UINT32_RANGE; norm_num
  obtain ⟨kr, kv, k1, -⟩ :=
    ramp_ticks_not_converged ⟨100, 100⟩ (List.replicate (2 ^ 31) (0, 0)) s1 hr
      (h1.trans hv.symm) (h2.trans hv.symm) (by rw [hv]; exact hR) hn
  rw [hv, List.length_replicate] at kv
  have hz : (0 + 2 ^ 31 * SOFT_START_COMPARE_VAL_STEP) % UINT32_RANGE = 0 := by
    unfold SOFT_START_COMPARE_VAL_STEP UINT32_RANGE
    norm_num
  have hreg : (ramp_ticks ⟨100, 100⟩ (List.replicate (2 ^ 31) (0, 0)) s1).hw.pwm_buck_1_compare0
      = 0 := by
    rw [k1, kv, hz]
  refine ⟨s1, hb, hn, List.length_replicate _ _, kr, hreg, ?_⟩
  rw [hreg]
  unfold SOFT_START_COMPARE_VAL_STEP
  norm_num

/-- C6: in `Ifx_BUCK_STATE_RAMP` the tick handler gives `Ifx_BUCK_STATE_RUN`
exactly when the run flag is set and the ramp flag is clear, and then it has
enabled the output-voltage protection and the button interrupt; for every
other pair of flags the state stays `Ifx_BUCK_STATE_RAMP` and neither the
protection enable nor the button enable is touched, so a protection that was
off is still off and a button interrupt that was disabled is still disabled. -/
theorem tick_ramp_to_run (cfg : PwmConfig) (run_flag ramp_flag : Nat) (s : Controller)
    (h : s.buck_state = Ifx_BUCK_STATE_RAMP) :
    ((soft_start_prot_intr_handler cfg run_flag ramp_flag s).buck_state = Ifx_BUCK_STATE_RUN ↔
      (run_flag ≠ 0 ∧ ramp_flag = 0)) ∧
    ((run_flag ≠ 0 ∧ ramp_flag = 0) →
      (soft_start_prot_intr_handler cfg run_flag ramp_flag s).hw.vout_prot_enabled = true ∧
      (soft_start_prot_intr_handler cfg run_flag ramp_flag s).hw.button_irq_enabled = true) ∧
    (¬ (run_flag ≠ 0 ∧ ramp_flag = 0) →
      (soft_start_prot_intr_handler cfg run_flag ramp_flag s).buck_state = Ifx_BUCK_STATE_RAMP ∧
      (soft_start_prot_intr_handler cfg run_flag ramp_flag s).hw.vout_prot_enabled =
        s.hw.vout_prot_enabled ∧
      (soft_start_prot_intr_handler cfg run_flag ramp_flag s).hw.button_irq_enabled =
        s.hw.button_irq_enabled ∧
      (s.hw.vout_prot_enabled = false →
        (soft_start_prot_intr_handler cfg run_flag ramp_flag s).hw.vout_prot_enabled = false) ∧
      (s.hw.button_irq_enabled = false →
        (soft_start_prot_intr_handler cfg run_flag ramp_flag s).hw.button_irq_enabled = false)) := by
  by_cases hc : converged run_flag ramp_flag
  · have hc2 : run_flag ≠ 0 ∧ ramp_flag = 0 := hc
    rw [tick_ramp_converged cfg run_flag ramp_flag s h hc]
    exact ⟨⟨fun _ => hc2, fun _ => rfl⟩, fun _ => ⟨rfl, rfl⟩, fun hn => absurd hc2 hn⟩
  · have hc2 : ¬ (run_flag ≠ 0 ∧ ramp_flag = 0) := hc
    rw [tick_ramp_not_converged cfg run_flag ramp_flag s h hc]
    refine ⟨⟨fun hr => ?_, fun hx => absurd hx hc2⟩, fun hx => absurd hx hc2,
      fun _ => ⟨h, rfl, rfl, fun hp => hp, fun hp => hp⟩⟩
    have hr2 : s.buck_state = Ifx_BUCK_STATE_RUN := hr
    rw [h] at hr2
    cases hr2

/-- C6 on the initial state put in `Ifx_BUCK_STATE_RAMP`, with the flags
reporting convergence. -/
theorem tick_ramp_to_run_witness :
    ({ initial_state ⟨100, 100⟩ with buck_state := Ifx_BUCK_STATE_RAMP }).buck_state =
      Ifx_BUCK_STATE_RAMP ∧
    (soft_start_prot_intr_handler ⟨100, 100⟩ 1 0
      { initial_state ⟨100, 100⟩ with buck_state := Ifx_BUCK_STATE_RAMP }).buck_state =
        Ifx_BUCK_STATE_RUN :=
  ⟨rfl, (tick_ramp_to_run ⟨100, 100⟩ 1 0
      { initial_state ⟨100, 100⟩ with buck_state := Ifx_BUCK_STATE_RAMP } rfl).1.2
        ⟨by decide, rfl⟩⟩

/-! ## The moving average -/

/-- The specification's filter, one more sample at the end:
`a_i = a_(i-1) + (s_i - a_(i-1)) / N`. -/
theorem ema_spec_append_one (N a0 x : ℚ) (xs : List ℚ) :
    ema_spec N a0 (xs ++ [x]) = ema_spec N a0 xs + (x - ema_spec N a0 xs) / N := by
  induction xs generalizing a0 with
  | nil => rfl
  | cons y rest ih =>
    simp only [List.cons_append, ema_spec]
    exact ih _

/-- With a successful disable call the callback returns, and the averages of
the state it returns are the updated ones, whether or not the fault handler
ran. -/
theorem adc_callback_returns (thr : Thresholds) (r : AdcResults) (s : Controller) :
    ∃ s1, buck1_scheduled_adc_callback thr r CY_RSLT_SUCCESS s = some s1 ∧
      s1.vin_avg = moving_average s.vin_avg r.Vin ∧
      s1.buck1_iout1_avg = moving_average s.buck1_iout1_avg r.Iout1 ∧
      s1.buck1_iout2_avg = moving_average s.buck1_iout2_avg r.Iout2 ∧
      s1.buck1_temp_avg = moving_average s.buck1_temp_avg r.Temp := by
  unfold buck1_scheduled_adc_callback
  by_cases ht : out_of_range thr (adc_update r s) = true
  · simp only [ht, if_true]
    exact ⟨_, rfl, rfl, rfl, rfl, rfl⟩
  · simp only [ht]
    exact ⟨_, rfl, rfl, rfl, rfl, rfl⟩

/-- The averages of the state the callback returns are the updated ones,
whether or not the fault handler ran. -/
theorem adc_callback_avgs (thr : Thresholds) (r : AdcResults) (disable_result : cy_rslt_t)
    (s s1 : Controller) (h : buck1_scheduled_adc_callback thr r disable_result s = some s1) :
    s1.vin_avg = moving_average s.vin_avg r.Vin ∧
      s1.buck1_iout1_avg = moving_average s.buck1_iout1_avg r.Iout1 ∧
      s1.buck1_iout2_avg = moving_average s.buck1_iout2_avg r.Iout2 ∧
      s1.buck1_temp_avg = moving_average s.buck1_temp_avg r.Temp := by
  unfold buck1_scheduled_adc_callback at h
  by_cases ht : out_of_range thr (adc_update r s) = true
  · simp only [ht, if_true] at h
    unfold fault_processing at h
    split_ifs at h
    cases h
    exact ⟨rfl, rfl, rfl, rfl⟩
  · simp only [ht] at h
    cases h
    exact ⟨rfl, rfl, rfl, rfl⟩

/-- What `fault_processing` returns. -/
theorem fault_processing_eq_some (disable_result : cy_rslt_t) (s s1 : Controller)
    (h : fault_processing disable_result s = some s1) :
    s1.buck_state = Ifx_BUCK_STATE_FAULT ∧ s1.hw.converter_enabled = false ∧
      s1.hw.converter_started = false ∧ s1.hw.button_irq_enabled = true := by
  unfold fault_processing at h
  split_ifs at h
  cases h
  exact ⟨rfl, rfl, rfl, rfl⟩

/-- What `buck1_scheduled_adc_callback` returns: the fault handler's state, or
a state with the state variable and the hardware untouched. -/
theorem adc_callback_eq_some (thr : Thresholds) (r : AdcResults) (disable_result : cy_rslt_t)
    (s s1 : Controller) (h : buck1_scheduled_adc_callback thr r disable_result s = some s1) :
    (out_of_range thr (adc_update r s) = true ∧
        fault_processing disable_result (adc_update r s) = some s1) ∨
      (out_of_range thr (adc_update r s) = false ∧ s1.buck_state = s.buck_state ∧
        s1.hw = s.hw) := by
  unfold buck1_scheduled_adc_callback at h
  by_cases ht : out_of_range thr (adc_update r s) = true
  · simp only [ht, if_true] at h
    exact Or.inl ⟨ht, h⟩
  · simp only [ht] at h
    cases h
    exact Or.inr ⟨by simpa using ht, rfl, rfl⟩

/-- The state after the fault handler is consistent. -/
theorem consistent_of_fault (s1 : Controller)
    (h : s1.buck_state = Ifx_BUCK_STATE_FAULT ∧ s1.hw.converter_enabled = false ∧
      s1.hw.converter_started = false ∧ s1.hw.button_irq_enabled = true) :
    consistent s1 := by
  obtain ⟨hf, he, hs, hb⟩ := h
  unfold consistent
  rw [hf, he, hs, hb]
  simp

/-- The initial state is consistent. -/
theorem consistent_initial (cfg : PwmConfig) : consistent (initial_state cfg) := by
  simp [consistent, initial_state]

/-- Every delivered handler keeps the state consistent. -/
theorem consistent_deliver (thr : Thresholds) (cfg : PwmConfig) (ev : Event)
    (s s1 : Controller) (hi : consistent s) (hd : deliver thr cfg ev s = some s1) :
    consistent s1 := by
  cases ev with
  | tick run_flag ramp_flag =>
    simp only [deliver, Option.some.injEq] at hd
    subst hd
    by_cases hr : s.buck_state = Ifx_BUCK_STATE_RAMP
    · obtain ⟨hb, hc, hs⟩ := hi
      rw [hr] at hc
      have hen : s.hw.converter_enabled = true := hc.2 (Or.inl rfl)
      by_cases hcv : converged run_flag ramp_flag
      · rw [tick_ramp_converged cfg run_flag ramp_flag s hr hcv]
        simp [consistent, hen, hs]
      · rw [tick_ramp_not_converged cfg run_flag ramp_flag s hr hcv]
        simp [consistent, hen, hs, hr, hb.2 hr]
    · rw [tick_not_ramp cfg run_flag ramp_flag s hr]
      exact hi
  | adc r disable_result =>
    simp only [deliver] at hd
    rcases adc_callback_eq_some thr r disable_result s s1 hd with ⟨-, hf⟩ | ⟨-, hst, hhw⟩
    · exact consistent_of_fault s1 (fault_processing_eq_some _ _ _ hf)
    · unfold consistent
      rw [hst, hhw]
      exact hi
  | fault disable_result =>
    simp only [deliver, buck1_fault_callback] at hd
    exact consistent_of_fault s1 (fault_processing_eq_some _ _ _ hd)
  | button enable_result start_result disable_result =>
    simp only [deliver] at hd
    by_cases hb : s.hw.button_irq_enabled = true
    · simp only [hb, if_true] at hd
      obtain ⟨hbr, hc, hs⟩ := hi
      unfold button_press_intr_handler at hd
      cases hst : s.buck_state with
      | Ifx_BUCK_STATE_IDLE =>
        simp only [hst] at hd
        split_ifs at hd
        cases hd
        simp [consistent]
      | Ifx_BUCK_STATE_RAMP =>
        rw [hbr.2 hst] at hb
        cases hb
      | Ifx_BUCK_STATE_RUN =>
        simp only [hst] at hd
        cases hd
        rw [hst] at hc
        simp [consistent, hb, hs, hc.2 (Or.inr (Or.inl rfl))]
      | Ifx_BUCK_STATE_TEST =>
        simp only [hst] at hd
        split_ifs at hd
        cases hd
        simp [consistent, hb]
      | Ifx_BUCK_STATE_FAULT =>
        simp only [hst] at hd
        cases hd
        rw [hst] at hc
        have hen : s.hw.converter_enabled = false := by
          cases he : s.hw.converter_enabled
          · rfl
          · have := hc.1 he
            simp at this
        simp [consistent, hb, hs, hen]
    · simp only [hb] at hd
      cases hd

/-- Every reachable state is consistent. -/
theorem reachable_consistent (thr : Thresholds) (cfg : PwmConfig) (s : Controller)
    (h : Reachable thr cfg s) : consistent s := by
  induction h with
  | init => exact consistent_initial cfg
  | step ev _ hd ih => exact consistent_deliver thr cfg ev _ _ ih hd

/-- C8: a reachable state in `Ifx_BUCK_STATE_FAULT` has the converter disabled.
From it, every tick and every telemetry callback that returns (and it returns
whenever the disable call succeeds) gives again `Ifx_BUCK_STATE_FAULT` with the
converter disabled; a handler that leaves `Ifx_BUCK_STATE_FAULT` is the button
handler, and it gives `Ifx_BUCK_STATE_IDLE`; the button press is delivered
there and the converter stays disabled. -/
theorem fault_latch (thr : Thresholds) (cfg : PwmConfig) (s : Controller)
    (hr : Reachable thr cfg s) (hf : s.buck_state = Ifx_BUCK_STATE_FAULT) :
    s.hw.converter_enabled = false ∧ s.hw.converter_started = false ∧
    (∀ run_flag ramp_flag : Nat,
      (soft_start_prot_intr_handler cfg run_flag ramp_flag s).buck_state =
        Ifx_BUCK_STATE_FAULT ∧
      (soft_start_prot_intr_handler cfg run_flag ramp_flag s).hw.converter_enabled = false) ∧
    (∀ (r : AdcResults) (disable_result : cy_rslt_t) (s1 : Controller),
      buck1_scheduled_adc_callback thr r disable_result s = some s1 →
        s1.buck_state = Ifx_BUCK_STATE_FAULT ∧ s1.hw.converter_enabled = false) ∧
    (∀ r : AdcResults, ∃ s1, buck1_scheduled_adc_callback thr r CY_RSLT_SUCCESS s = some s1) ∧
    (∀ (ev : Event) (s1 : Controller), deliver thr cfg ev s = some s1 →
      s1.buck_state ≠ Ifx_BUCK_STATE_FAULT →
        (∃ enable_result start_result disable_result,
          ev = Event.button enable_result start_result disable_result) ∧
        s1.buck_state = Ifx_BUCK_STATE_IDLE) ∧
    (∀ enable_result start_result disable_result : cy_rslt_t,
      ∃ s1, deliver thr cfg (Event.button enable_result start_result disable_result) s = some s1 ∧
        s1.buck_state = Ifx_BUCK_STATE_IDLE ∧ s1.hw.converter_enabled = false) := by
  obtain ⟨hb, hc, hs⟩ := reachable_consistent thr cfg s hr
  have hnr : s.buck_state ≠ Ifx_BUCK_STATE_RAMP := by rw [hf]; decide
  have hen : s.hw.converter_enabled = false := by
    cases he : s.hw.converter_enabled
    · rfl
    · have := hc.1 he
      rw [hf] at this
      simp at this
  have hbtn : s.hw.button_irq_enabled = true := by
    cases hbe : s.hw.button_irq_enabled
    · exact absurd (hb.1 hbe) hnr
    · rfl
  have hadc : ∀ (r : AdcResults) (disable_result : cy_rslt_t) (s1 : Controller),
      buck1_scheduled_adc_callback thr r disable_result s = some s1 →
        s1.buck_state = Ifx_BUCK_STATE_FAULT ∧ s1.hw.converter_enabled = false := by
    intro r disable_result s1 h
    rcases adc_callback_eq_some thr r disable_result s s1 h with ⟨-, hfp⟩ | ⟨-, hst, hhw⟩
    · obtain ⟨h1, h2, -, -⟩ := fault_processing_eq_some _ _ _ hfp
      exact ⟨h1, h2⟩
    · exact ⟨hst.trans hf, by rw [hhw]; exact hen⟩
  refine ⟨hen, hs.trans hen, ?_, hadc, ?_, ?_, ?_⟩
  · intro run_flag ramp_flag
    rw [tick_not_ramp cfg run_flag ramp_flag s hnr]
    exact ⟨hf, hen⟩
  · intro r
    obtain ⟨s1, h, -⟩ := adc_callback_returns thr r s
    exact ⟨s1, h⟩
  · intro ev s1 hd hne
    cases ev with
    | tick run_flag ramp_flag =>
      simp only [deliver, Option.some.injEq] at hd
      rw [tick_not_ramp cfg run_flag ramp_flag s hnr] at hd
      subst hd
      exact absurd hf hne
    | adc r disable_result =>
      exact absurd (hadc r disable_result s1 hd).1 hne
    | fault disable_result =>
      simp only [deliver, buck1_fault_callback] at hd
      exact absurd (fault_processing_eq_some _ _ _ hd).1 hne
    | button enable_result start_result disable_result =>
      refine ⟨⟨_, _, _, rfl⟩, ?_⟩
      simp only [deliver, hbtn, if_true, button_press_intr_handler, hf, Option.some.injEq] at hd
      subst hd
      rfl
  · intro enable_result start_result disable_result
    simp only [deliver, hbtn, if_true, button_press_intr_handler, hf]
    exact ⟨_, rfl, rfl, hen⟩

/-- C8 on the state the fault callback gives from the initial state. -/
theorem fault_latch_witness :
    ∃ s, Reachable ⟨1000, 3000, 2000, 2000, 2000⟩ ⟨100, 100⟩ s ∧
      s.buck_state = Ifx_BUCK_STATE_FAULT ∧ s.hw.converter_enabled = false ∧
      (soft_start_prot_intr_handler ⟨100, 100⟩ 1 0 s).buck_state = Ifx_BUCK_STATE_FAULT :=
  have hreach := @Reachable.step ⟨1000, 3000, 2000, 2000, 2000⟩ ⟨100, 100⟩ _ _ (Event.fault 0)
    Reachable.init rfl
  ⟨_, hreach, rfl,
    (fault_latch ⟨1000, 3000, 2000, 2000, 2000⟩ ⟨100, 100⟩ _ hreach rfl).1,
    ((fault_latch ⟨1000, 3000, 2000, 2000, 2000⟩ ⟨100, 100⟩ _ hreach rfl).2.2.1 1 0).1⟩

/-- C9 as stated fails: the button handler run in the ramping state that the
button press gives from the initial state returns `Ifx_BUCK_STATE_IDLE`, not
`Ifx_BUCK_STATE_RAMP`, and the converter is still enabled. -/
theorem button_press_in_ramp_leaves_ramp :
    ∃ s0 s1, button_press_intr_handler 0 0 0 (initial_state ⟨100, 100⟩) = some s0 ∧
      s0.buck_state = Ifx_BUCK_STATE_RAMP ∧
      button_press_intr_handler 0 0 0 s0 = some s1 ∧
      s1.buck_state = Ifx_BUCK_STATE_IDLE ∧
      s1.buck_state ≠ Ifx_BUCK_STATE_RAMP ∧
      s1.hw.converter_enabled = true :=
  ⟨_, _, rfl, rfl, rfl, rfl, by decide, rfl⟩

/-- C9, as amended: the handler has no case for `Ifx_BUCK_STATE_RAMP`; run in
that state it takes the `default` branch, returns `Ifx_BUCK_STATE_IDLE` and
changes nothing else: the hardware (output enable, LEDs, timers, button
enable), the readings, the averages and the ramp reference are as before. -/
theorem button_press_in_ramp (enable_result start_result disable_result : cy_rslt_t)
    (s : Controller) (h : s.buck_state = Ifx_BUCK_STATE_RAMP) :
    ∃ s1, button_press_intr_handler enable_result start_result disable_result s = some s1 ∧
      s1.buck_state = Ifx_BUCK_STATE_IDLE ∧ s1.hw = s.hw ∧ same_data s s1 := by
  simp only [button_press_intr_handler, h]
  exact ⟨_, rfl, rfl, rfl, rfl, rfl, rfl, rfl, rfl, rfl, rfl, rfl, rfl⟩

/-- C9 on the initial state put in `Ifx_BUCK_STATE_RAMP`. -/
theorem button_press_in_ramp_witness :
    ({ initial_state ⟨100, 100⟩ with buck_state := Ifx_BUCK_STATE_RAMP }).buck_state =
      Ifx_BUCK_STATE_RAMP ∧
    ∃ s1, button_press_intr_handler 0 0 0
        { initial_state ⟨100, 100⟩ with buck_state := Ifx_BUCK_STATE_RAMP } = some s1 ∧
      s1.buck_state = Ifx_BUCK_STATE_IDLE ∧
      s1.hw = ({ initial_state ⟨100, 100⟩ with buck_state := Ifx_BUCK_STATE_RAMP }).hw ∧
      same_data { initial_state ⟨100, 100⟩ with buck_state := Ifx_BUCK_STATE_RAMP } s1 :=
  ⟨rfl, button_press_in_ramp 0 0 0
    { initial_state ⟨100, 100⟩ with buck_state := Ifx_BUCK_STATE_RAMP } rfl⟩

/-- C10: in a reachable state, `Ifx_BUCK_STATE_RAMP` implies that the button
interrupt is disabled, so no button press is delivered there; every handler
that is delivered leaves the state in `Ifx_BUCK_STATE_RAMP`, or gives
`Ifx_BUCK_STATE_RUN` and is a tick whose flags report convergence, or gives
`Ifx_BUCK_STATE_FAULT` and is the telemetry callback or the fault callback. -/
theorem button_excluded_during_ramp (thr : Thresholds) (cfg : PwmConfig) (s : Controller)
    (hr : Reachable thr cfg s) (hm : s.buck_state = Ifx_BUCK_STATE_RAMP) :
    s.hw.button_irq_enabled = false ∧
    (∀ enable_result start_result disable_result : cy_rslt_t,
      deliver thr cfg (Event.button enable_result start_result disable_result) s = none) ∧
    (∀ (ev : Event) (s1 : Controller), deliver thr cfg ev s = some s1 →
      (s1.buck_state = Ifx_BUCK_STATE_RAMP ∧ s1.hw.button_irq_enabled = false) ∨
      (s1.buck_state = Ifx_BUCK_STATE_RUN ∧
        ∃ run_flag ramp_flag, ev = Event.tick run_flag ramp_flag ∧
          run_flag ≠ 0 ∧ ramp_flag = 0) ∨
      (s1.buck_state = Ifx_BUCK_STATE_FAULT ∧
        ((∃ r disable_result, ev = Event.adc r disable_result) ∨
          ∃ disable_result, ev = Event.fault disable_result))) := by
  obtain ⟨hb, -, -⟩ := reachable_consistent thr cfg s hr
  have hoff : s.hw.button_irq_enabled = false := hb.2 hm
  refine ⟨hoff, ?_, ?_⟩
  · intro enable_result start_result disable_result
    simp [deliver, hoff]
  · intro ev s1 hd
    cases ev with
    | tick run_flag ramp_flag =>
      simp only [deliver, Option.some.injEq] at hd
      subst hd
      by_cases hcv : converged run_flag ramp_flag
      · rw [tick_ramp_converged cfg run_flag ramp_flag s hm hcv]
        exact Or.inr (Or.inl ⟨rfl, run_flag, ramp_flag, rfl, hcv.1, hcv.2⟩)
      · rw [tick_ramp_not_converged cfg run_flag ramp_flag s hm hcv]
        exact Or.inl ⟨hm, hoff⟩
    | adc r disable_result =>
      simp only [deliver] at hd
      rcases adc_callback_eq_some thr r disable_result s s1 hd with ⟨-, hfp⟩ | ⟨-, hst, hhw⟩
      · exact Or.inr (Or.inr ⟨(fault_processing_eq_some _ _ _ hfp).1, Or.inl ⟨_, _, rfl⟩⟩)
      · exact Or.inl ⟨hst.trans hm, by rw [hhw]; exact hoff⟩
    | fault disable_result =>
      simp only [deliver, buck1_fault_callback] at hd
      exact Or.inr (Or.inr ⟨(fault_processing_eq_some _ _ _ hd).1, Or.inr ⟨_, rfl⟩⟩)
    | button enable_result start_result disable_result =>
      simp [deliver, hoff] at hd

/-- C10 on the state the button press gives from the initial state. -/
theorem button_excluded_during_ramp_witness :
    ∃ s, Reachable ⟨1000, 3000, 2000, 2000, 2000⟩ ⟨100, 100⟩ s ∧
      s.buck_state = Ifx_BUCK_STATE_RAMP ∧ s.hw.button_irq_enabled = false ∧
      deliver ⟨1000, 3000, 2000, 2000, 2000⟩ ⟨100, 100⟩ (Event.button 0 0 0) s = none :=
  have hreach := @Reachable.step ⟨1000, 3000, 2000, 2000, 2000⟩ ⟨100, 100⟩ _ _
    (Event.button 0 0 0) Reachable.init rfl
  ⟨_, hreach, rfl,
    (button_excluded_during_ramp ⟨1000, 3000, 2000, 2000, 2000⟩ ⟨100, 100⟩ _ hreach rfl).1,
    (button_excluded_during_ramp ⟨1000, 3000, 2000, 2000, 2000⟩ ⟨100, 100⟩ _ hreach rfl).2.1
      0 0 0⟩

/-! ## The ramp reference and the final target -/

/-- From the state a button press gives in `Ifx_BUCK_STATE_IDLE`, `k` ticks
whose flags are both clear leave the state ramping with the reference
`k * SOFT_START_COMPARE_VAL_STEP` modulo `2 ^ 32`. -/
theorem ramp_ticks_replicate (cfg : PwmConfig)
    (enable_result start_result disable_result : cy_rslt_t) (s0 s1 : Controller) (k : Nat)
    (h0 : s0.buck_state = Ifx_BUCK_STATE_IDLE)
    (hb : button_press_intr_handler enable_result start_result disable_result s0 = some s1) :
    (ramp_ticks cfg (List.replicate k (0, 0)) s1).buck_state = Ifx_BUCK_STATE_RAMP ∧
      (ramp_ticks cfg (List.replicate k (0, 0)) s1).soft_start_compare_value =
        (k * SOFT_START_COMPARE_VAL_STEP) % UINT32_RANGE := by
  obtain ⟨hr, hv, h1, h2, -, -⟩ :=
    button_press_idle_ramp_start enable_result start_result disable_result s0 s1 h0 hb
  have hn : ∀ p ∈ List.replicate k ((0 : Nat), (0 : Nat)), ¬ converged p.1 p.2 := by
    intro p hp
    rw [List.eq_of_mem_replicate hp]
    intro hc
    exact hc.1 rfl
  have hR : (0 : Nat) < UINT32_RANGE := by unfold UINT32_RANGE; norm_num
  obtain ⟨kr, kv, -, -⟩ :=
    ramp_ticks_not_converged cfg (List.replicate k (0, 0)) s1 hr
      (h1.trans hv.symm) (h2.trans hv.symm) (by rw [hv]; exact hR) hn
  rw [hv, List.length_replicate, Nat.zero_add] at kv
  exact ⟨kr, kv⟩

/-- C11 as stated fails. With both configured final compare values `100`, the
reference after the button press and `51` ticks without convergence is `102`,
above the final target; and the reference is `2 ^ 32 - 2` after `2 ^ 31 - 1`
such ticks and `0` after `2 ^ 31`, so it has decreased. -/
theorem ramp_reference_exceeds_target :
    ∃ s1, button_press_intr_handler 0 0 0 (initial_state ⟨100, 100⟩) = some s1 ∧
      (ramp_ticks ⟨100, 100⟩ (List.replicate 51 (0, 0)) s1).buck_state =
        Ifx_BUCK_STATE_RAMP ∧
      (ramp_ticks ⟨100, 100⟩ (List.replicate 51 (0, 0)) s1).soft_start_compare_value = 102 ∧
      ¬ ((ramp_ticks ⟨100, 100⟩ (List.replicate 51 (0, 0)) s1).soft_start_compare_value ≤
        (⟨100, 100⟩ : PwmConfig).PWM_BUCK_1_compare0) ∧
      (ramp_ticks ⟨100, 100⟩ (List.replicate (2 ^ 31 - 1) (0, 0)) s1).soft_start_compare_value =
        2 ^ 32 - 2 ∧
      (ramp_ticks ⟨100, 100⟩ (List.replicate (2 ^ 31) (0, 0)) s1).soft_start_compare_value = 0 ∧
      ¬ ((ramp_ticks ⟨100, 100⟩ (List.replicate (2 ^ 31 - 1) (0, 0)) s1).soft_start_compare_value ≤
        (ramp_ticks ⟨100, 100⟩ (List.replicate (2 ^ 31) (0, 0)) s1).soft_start_compare_value) := by
  obtain ⟨s1, hb⟩ := button_press_idle_returns 0 0 0 (initial_state ⟨100, 100⟩) rfl rfl rfl
  obtain ⟨ha, hav⟩ := ramp_ticks_replicate ⟨100, 100⟩ 0 0 0 _ s1 51 rfl hb
  obtain ⟨-, hbv⟩ := ramp_ticks_replicate ⟨100, 100⟩ 0 0 0 _ s1 (2 ^ 31 - 1) rfl hb
  obtain ⟨-, hcv⟩ := ramp_ticks_replicate ⟨100, 100⟩ 0 0 0 _ s1 (2 ^ 31) rfl hb
  have e1 : (51 * SOFT_START_COMPARE_VAL_STEP) % UINT32_RANGE = 102 := by
    unfold SOFT_START_COMPARE_VAL_STEP UINT32_RANGE
    norm_num
  have e2 : ((2 ^ 31 - 1) * SOFT_START_COMPARE_VAL_STEP) % UINT32_RANGE = 2 ^ 32 - 2 := by
    unfold SOFT_START_COMPARE_VAL_STEP UINT32_RANGE
    norm_num
  have e3 : (2 ^ 31 * SOFT_START_COMPARE_VAL_STEP) % UINT32_RANGE = 0 := by
    unfold SOFT_START_COMPARE_VAL_STEP UINT32_RANGE
    norm_num
  rw [e1] at hav
  rw [e2] at hbv
  rw [e3] at hcv
  refine ⟨s1, hb, ha, hav, ?_, hbv, hcv, ?_⟩
  · rw [hav]
    norm_num
  · rw [hbv, hcv]
    norm_num

/-- From a state in `Ifx_BUCK_STATE_RAMP` with reference `0` commanded to both
phases, the reference after the first `i` ticks of a sequence without
convergence is `i` steps, as long as the whole sequence stays below `2 ^ 32`. -/
theorem ramp_ticks_prefix_value (cfg : PwmConfig) (fl : List (Nat × Nat)) (s1 : Controller)
    (i : Nat) (hr : s1.buck_state = Ifx_BUCK_STATE_RAMP)
    (hv : s1.soft_start_compare_value = 0)
    (h1 : s1.hw.pwm_buck_1_compare0 = 0) (h2 : s1.hw.pwm_buck_2_compare0 = 0)
    (hn : ∀ p ∈ fl, ¬ converged p.1 p.2)
    (hw : fl.length * SOFT_START_COMPARE_VAL_STEP < 2 ^ 32) :
    (ramp_ticks cfg (fl.take i) s1).soft_start_compare_value =
      (fl.take i).length * SOFT_START_COMPARE_VAL_STEP := by
  have hR : (0 : Nat) < UINT32_RANGE := by unfold UINT32_RANGE; norm_num
  obtain ⟨-, kv, -, -⟩ :=
    ramp_ticks_not_converged cfg (fl.take i) s1 hr (h1.trans hv.symm) (h2.trans hv.symm)
      (by rw [hv]; exact hR) (fun p hp => hn p (List.mem_of_mem_take hp))
  rw [hv, Nat.zero_add] at kv
  rw [kv]
  apply Nat.mod_eq_of_lt
  have hle : (fl.take i).length ≤ fl.length := by
    rw [List.length_take]
    exact Nat.min_le_right _ _
  calc (fl.take i).length * SOFT_START_COMPARE_VAL_STEP
      ≤ fl.length * SOFT_START_COMPARE_VAL_STEP := Nat.mul_le_mul_right _ hle
    _ < 2 ^ 32 := hw

/-- C11, as amended: during the ticks of one ramp that do not report
convergence, as long as the number of ticks times the step stays below
`2 ^ 32`, the reference after `i` ticks is `i` steps, so it does not decrease
from an earlier tick `i` to a later tick `j`, and it stays below `2 ^ 32`. The
configured final compare values do not occur in the bound: the handler does
not compare the reference with them. -/
theorem ramp_reference_monotone (cfg : PwmConfig)
    (enable_result start_result disable_result : cy_rslt_t) (s0 : Controller)
    (fl : List (Nat × Nat)) (i j : Nat)
    (h0 : s0.buck_state = Ifx_BUCK_STATE_IDLE)
    (he : enable_result = CY_RSLT_SUCCESS) (hst : start_result = CY_RSLT_SUCCESS)
    (hn : ∀ p ∈ fl, ¬ converged p.1 p.2)
    (hij : i ≤ j)
    (hw : fl.length * SOFT_START_COMPARE_VAL_STEP < 2 ^ 32) :
    ∃ s1, button_press_intr_handler enable_result start_result disable_result s0 = some s1 ∧
      (ramp_ticks cfg (fl.take i) s1).soft_start_compare_value =
        (fl.take i).length * SOFT_START_COMPARE_VAL_STEP ∧
      (ramp_ticks cfg (fl.take j) s1).soft_start_compare_value =
        (fl.take j).length * SOFT_START_COMPARE_VAL_STEP ∧
      (ramp_ticks cfg (fl.take i) s1).soft_start_compare_value ≤
        (ramp_ticks cfg (fl.take j) s1).soft_start_compare_value ∧
      (ramp_ticks cfg (fl.take j) s1).soft_start_compare_value < 2 ^ 32 := by
  obtain ⟨s1, hb⟩ :=
    button_press_idle_returns enable_result start_result disable_result s0 h0 he hst
  obtain ⟨hr, hv, h1, h2, -, -⟩ :=
    button_press_idle_ramp_start enable_result start_result disable_result s0 s1 h0 hb
  have ki := ramp_ticks_prefix_value cfg fl s1 i hr hv h1 h2 hn hw
  have kj := ramp_ticks_prefix_value cfg fl s1 j hr hv h1 h2 hn hw
  have hlen : (fl.take i).length ≤ (fl.take j).length := by
    rw [List.length_take, List.length_take]
    exact min_le_min hij (le_refl _)
  have hle : (fl.take j).length ≤ fl.length := by
    rw [List.length_take]
    exact Nat.min_le_right _ _
  refine ⟨s1, hb, ki, kj, ?_, ?_⟩
  · rw [ki, kj]
    exact Nat.mul_le_mul_right _ hlen
  · rw [kj]
    calc (fl.take j).length * SOFT_START_COMPARE_VAL_STEP
        ≤ fl.length * SOFT_START_COMPARE_VAL_STEP := Nat.mul_le_mul_right _ hle
      _ < 2 ^ 32 := hw

/-- C11 from the initial state: three ticks without convergence, the reference
after the first tick against the reference after the third. -/
theorem ramp_reference_monotone_witness :
    (initial_state ⟨100, 100⟩).buck_state = Ifx_BUCK_STATE_IDLE ∧
    (∀ p ∈ [((0 : Nat), (0 : Nat)), (1, 1), (0, 1)], ¬ converged p.1 p.2) ∧
    (1 : Nat) ≤ 3 ∧
    [((0 : Nat), (0 : Nat)), (1, 1), (0, 1)].length * SOFT_START_COMPARE_VAL_STEP < 2 ^ 32 ∧
    ∃ s1, button_press_intr_handler 0 0 0 (initial_state ⟨100, 100⟩) = some s1 ∧
      (ramp_ticks ⟨100, 100⟩ ([((0 : Nat), (0 : Nat)), (1, 1), (0, 1)].take 1)
          s1).soft_start_compare_value =
        ([((0 : Nat), (0 : Nat)), (1, 1), (0, 1)].take 1).length * SOFT_START_COMPARE_VAL_STEP ∧
      (ramp_ticks ⟨100, 100⟩ ([((0 : Nat), (0 : Nat)), (1, 1), (0, 1)].take 3)
          s1).soft_start_compare_value =
        ([((0 : Nat), (0 : Nat)), (1, 1), (0, 1)].take 3).length * SOFT_START_COMPARE_VAL_STEP ∧
      (ramp_ticks ⟨100, 100⟩ ([((0 : Nat), (0 : Nat)), (1, 1), (0, 1)].take 1)
          s1).soft_start_compare_value ≤
        (ramp_ticks ⟨100, 100⟩ ([((0 : Nat), (0 : Nat)), (1, 1), (0, 1)].take 3)
          s1).soft_start_compare_value ∧
      (ramp_ticks ⟨100, 100⟩ ([((0 : Nat), (0 : Nat)), (1, 1), (0, 1)].take 3)
          s1).soft_start_compare_value < 2 ^ 32 :=
  ⟨rfl, by decide, by decide, by decide,
    ramp_reference_monotone ⟨100, 100⟩ 0 0 0 (initial_state ⟨100, 100⟩)
      [(0, 0), (1, 1), (0, 1)] 1 3 rfl rfl rfl (by decide) (by decide) (by decide)⟩

/-! ## Spikes and sustained readings -/

/-- A filter step moves the average towards the sample: a sample at or above
the average does not lower it, a sample at or below does not raise it. -/
theorem ema_step_between (N a x : ℚ) (hN : 0 < N) :
    (a ≤ x → a ≤ a + (x - a) / N) ∧ (x ≤ a → a + (x - a) / N ≤ a) := by
  constructor
  · intro h
    have h2 : 0 ≤ (x - a) / N := div_nonneg (by linarith) (le_of_lt hN)
    linarith
  · intro h
    have h2 : (x - a) / N ≤ 0 := div_nonpos_of_nonpos_of_nonneg (by linarith) (le_of_lt hN)
    linarith

/-- The tick handler does not write the averages. -/
theorem tick_same_averages (cfg : PwmConfig) (run_flag ramp_flag : Nat) (s : Controller) :
    same_averages s (soft_start_prot_intr_handler cfg run_flag ramp_flag s) := by
  by_cases hr : s.buck_state = Ifx_BUCK_STATE_RAMP
  · by_cases hc : converged run_flag ramp_flag
    · rw [tick_ramp_converged cfg run_flag ramp_flag s hr hc]
      exact ⟨rfl, rfl, rfl, rfl⟩
    · rw [tick_ramp_not_converged cfg run_flag ramp_flag s hr hc]
      exact ⟨rfl, rfl, rfl, rfl⟩
  · rw [tick_not_ramp cfg run_flag ramp_flag s hr]
    exact ⟨rfl, rfl, rfl, rfl⟩

/-- The fault handler does not write the averages. -/
theorem fault_same_averages (disable_result : cy_rslt_t) (s s1 : Controller)
    (h : fault_processing disable_result s = some s1) : same_averages s s1 := by
  unfold fault_processing at h
  split_ifs at h
  cases h
  exact ⟨rfl, rfl, rfl, rfl⟩

/-- The button handler primes the averages in `Ifx_BUCK_STATE_IDLE` and does
not write them in any other state. -/
theorem button_averages (enable_result start_result disable_result : cy_rslt_t)
    (s s1 : Controller)
    (h : button_press_intr_handler enable_result start_result disable_result s = some s1) :
    (s.buck_state = Ifx_BUCK_STATE_IDLE → primed_averages s1) ∧
    (s.buck_state ≠ Ifx_BUCK_STATE_IDLE → same_averages s s1) := by
  unfold button_press_intr_handler at h
  cases hst : s.buck_state with
  | Ifx_BUCK_STATE_IDLE =>
    simp only [hst] at h
    split_ifs at h
    cases h
    refine ⟨fun _ => ⟨?_, rfl, rfl, rfl⟩, fun hne => absurd rfl hne⟩
    show ((VIN_COUNT : Nat) : ℚ) = 1906
    unfold VIN_COUNT
    norm_num
  | Ifx_BUCK_STATE_RAMP =>
    simp only [hst] at h
    cases h
    exact ⟨fun hc => (by cases hc), fun _ => ⟨rfl, rfl, rfl, rfl⟩⟩
  | Ifx_BUCK_STATE_RUN =>
    simp only [hst] at h
    cases h
    exact ⟨fun hc => (by cases hc), fun _ => ⟨rfl, rfl, rfl, rfl⟩⟩
  | Ifx_BUCK_STATE_TEST =>
    simp only [hst] at h
    split_ifs at h
    cases h
    exact ⟨fun hc => (by cases hc), fun _ => ⟨rfl, rfl, rfl, rfl⟩⟩
  | Ifx_BUCK_STATE_FAULT =>
    simp only [hst] at h
    cases h
    exact ⟨fun hc => (by cases hc), fun _ => ⟨rfl, rfl, rfl, rfl⟩⟩

/-- C13: for every controller state, a button press in `Ifx_BUCK_STATE_RUN`,
`Ifx_BUCK_STATE_TEST` or `Ifx_BUCK_STATE_FAULT` returns (in
`Ifx_BUCK_STATE_TEST` when the disable call succeeds) with the four averages
unchanged, the tick handler leaves them unchanged in every state, and so does
the fault handler; the button press in `Ifx_BUCK_STATE_IDLE` sets them to the
primed values; the telemetry callback applies one filter update. Every
delivered handler does one of these three: it leaves the averages unchanged,
or it is the button press in `Ifx_BUCK_STATE_IDLE` and primes them, or it is
the telemetry callback and updates them. -/
theorem averages_reset_only_on_idle_button (thr : Thresholds) (cfg : PwmConfig)
    (s : Controller) :
    (∀ enable_result start_result disable_result : cy_rslt_t,
      s.buck_state = Ifx_BUCK_STATE_RUN ∨ s.buck_state = Ifx_BUCK_STATE_FAULT →
        ∃ s1, button_press_intr_handler enable_result start_result disable_result s = some s1 ∧
          same_averages s s1) ∧
    (∀ enable_result start_result : cy_rslt_t, s.buck_state = Ifx_BUCK_STATE_TEST →
      ∃ s1, button_press_intr_handler enable_result start_result CY_RSLT_SUCCESS s = some s1 ∧
        same_averages s s1) ∧
    (∀ (enable_result start_result disable_result : cy_rslt_t) (s1 : Controller),
      s.buck_state ≠ Ifx_BUCK_STATE_IDLE →
        button_press_intr_handler enable_result start_result disable_result s = some s1 →
          same_averages s s1) ∧
    (∀ run_flag ramp_flag : Nat,
      same_averages s (soft_start_prot_intr_handler cfg run_flag ramp_flag s)) ∧
    (∀ (disable_result : cy_rslt_t) (s1 : Controller),
      fault_processing disable_result s = some s1 → same_averages s s1) ∧
    (∃ s1, fault_processing CY_RSLT_SUCCESS s = some s1 ∧ same_averages s s1) ∧
    (∀ (enable_result start_result disable_result : cy_rslt_t) (s1 : Controller),
      s.buck_state = Ifx_BUCK_STATE_IDLE →
        button_press_intr_handler enable_result start_result disable_result s = some s1 →
          primed_averages s1) ∧
    (∀ disable_result : cy_rslt_t, s.buck_state = Ifx_BUCK_STATE_IDLE →
      ∃ s1, button_press_intr_handler CY_RSLT_SUCCESS CY_RSLT_SUCCESS disable_result s =
          some s1 ∧ primed_averages s1) ∧
    (∀ (r : AdcResults) (disable_result : cy_rslt_t) (s1 : Controller),
      buck1_scheduled_adc_callback thr r disable_result s = some s1 →
        updated_averages r s s1) ∧
    (∀ (ev : Event) (s1 : Controller), deliver thr cfg ev s = some s1 →
      same_averages s s1 ∨
      (primed_averages s1 ∧ s.buck_state = Ifx_BUCK_STATE_IDLE ∧
        ∃ enable_result start_result disable_result,
          ev = Event.button enable_result start_result disable_result) ∨
      (∃ r disable_result, ev = Event.adc r disable_result ∧ updated_averages r s s1)) := by
  refine ⟨?_, ?_, ?_, ?_, ?_, ?_, ?_, ?_, ?_, ?_⟩
  · intro enable_result start_result disable_result hst
    rcases hst with hst | hst
    · simp only [button_press_intr_handler, hst]
      exact ⟨_, rfl, rfl, rfl, rfl, rfl⟩
    · simp only [button_press_intr_handler, hst]
      exact ⟨_, rfl, rfl, rfl, rfl, rfl⟩
  · intro enable_result start_result hst
    simp only [button_press_intr_handler, hst, ne_eq, not_true_eq_false, if_false]
    exact ⟨_, rfl, rfl, rfl, rfl, rfl⟩
  · intro enable_result start_result disable_result s1 hne h
    exact (button_averages enable_result start_result disable_result s s1 h).2 hne
  · intro run_flag ramp_flag
    exact tick_same_averages cfg run_flag ramp_flag s
  · intro disable_result s1 h
    exact fault_same_averages disable_result s s1 h
  · exact ⟨_, rfl, rfl, rfl, rfl, rfl⟩
  · intro enable_result start_result disable_result s1 hst h
    exact (button_averages enable_result start_result disable_result s s1 h).1 hst
  · intro disable_result hst
    obtain ⟨s1, h⟩ :=
      button_press_idle_returns CY_RSLT_SUCCESS CY_RSLT_SUCCESS disable_result s hst rfl rfl
    exact ⟨s1, h, (button_averages _ _ _ s s1 h).1 hst⟩
  · intro r disable_result s1 h
    exact adc_callback_avgs thr r disable_result s s1 h
  · intro ev s1 hd
    cases ev with
    | tick run_flag ramp_flag =>
      simp only [deliver, Option.some.injEq] at hd
      subst hd
      exact Or.inl (tick_same_averages cfg run_flag ramp_flag s)
    | adc r disable_result =>
      simp only [deliver] at hd
      exact Or.inr (Or.inr ⟨r, disable_result, rfl, adc_callback_avgs thr r disable_result s s1 hd⟩)
    | fault disable_result =>
      simp only [deliver, buck1_fault_callback] at hd
      exact Or.inl (fault_same_averages disable_result s s1 hd)
    | button enable_result start_result disable_result =>
      simp only [deliver] at hd
      by_cases hb : s.hw.button_irq_enabled = true
      · simp only [hb, if_true] at hd
        by_cases hst : s.buck_state = Ifx_BUCK_STATE_IDLE
        · exact Or.inr (Or.inl ⟨(button_averages _ _ _ s s1 hd).1 hst, hst, _, _, _, rfl⟩)
        · exact Or.inl ((button_averages _ _ _ s s1 hd).2 hst)
      · simp only [hb] at hd
        cases hd

/-- C13 on the initial state with averages `(2000, 5, 6, 7)`: put in
`Ifx_BUCK_STATE_RUN` the button press keeps them, in `Ifx_BUCK_STATE_IDLE` it
primes them. -/
theorem averages_reset_only_on_idle_button_witness :
    (∃ s1, button_press_intr_handler 0 0 0
        { initial_state ⟨100, 100⟩ with
          vin_avg := 2000, buck1_iout1_avg := 5, buck1_iout2_avg := 6, buck1_temp_avg := 7,
          buck_state := Ifx_BUCK_STATE_RUN } = some s1 ∧
      s1.vin_avg = 2000 ∧ s1.buck1_iout1_avg = 5) ∧
    (∃ s1, button_press_intr_handler CY_RSLT_SUCCESS CY_RSLT_SUCCESS 0
        { initial_state ⟨100, 100⟩ with
          vin_avg := 2000, buck1_iout1_avg := 5, buck1_iout2_avg := 6,
          buck1_temp_avg := 7 } = some s1 ∧
      primed_averages s1) := by
  obtain ⟨a, ha, hav, ha1, -, -⟩ :=
    (averages_reset_only_on_idle_button ⟨1000, 3000, 2000, 2000, 2000⟩ ⟨100, 100⟩
      { initial_state ⟨100, 100⟩ with
        vin_avg := 2000, buck1_iout1_avg := 5, buck1_iout2_avg := 6, buck1_temp_avg := 7,
        buck_state := Ifx_BUCK_STATE_RUN }).1 0 0 0 (Or.inl rfl)
  exact ⟨⟨a, ha, hav, ha1⟩,
    (averages_reset_only_on_idle_button ⟨1000, 3000, 2000, 2000, 2000⟩ ⟨100, 100⟩
      { initial_state ⟨100, 100⟩ with
        vin_avg := 2000, buck1_iout1_avg := 5, buck1_iout2_avg := 6,
        buck1_temp_avg := 7 }).2.2.2.2.2.2.2.1 0 rfl⟩

/-! ## Sustained out-of-range readings -/

/-- C15: in every reachable state the converter is enabled exactly when the
state is `Ifx_BUCK_STATE_RAMP`, `Ifx_BUCK_STATE_RUN` or `Ifx_BUCK_STATE_TEST`
(and it is started exactly when it is enabled), so in `Ifx_BUCK_STATE_IDLE` and
in `Ifx_BUCK_STATE_FAULT` it is disabled. -/
theorem output_enabled_iff (thr : Thresholds) (cfg : PwmConfig) (s : Controller)
    (hr : Reachable thr cfg s) :
    (s.hw.converter_enabled = true ↔
      (s.buck_state = Ifx_BUCK_STATE_RAMP ∨ s.buck_state = Ifx_BUCK_STATE_RUN ∨
        s.buck_state = Ifx_BUCK_STATE_TEST)) ∧
    s.hw.converter_started = s.hw.converter_enabled ∧
    (s.buck_state = Ifx_BUCK_STATE_IDLE → s.hw.converter_enabled = false) ∧
    (s.buck_state = Ifx_BUCK_STATE_FAULT → s.hw.converter_enabled = false) := by
  obtain ⟨-, hc, hs⟩ := reachable_consistent thr cfg s hr
  refine ⟨hc, hs, ?_, ?_⟩
  · intro hst
    cases he : s.hw.converter_enabled
    · rfl
    · have := hc.1 he
      rw [hst] at this
      simp at this
  · intro hst
    cases he : s.hw.converter_enabled
    · rfl
    · have := hc.1 he
      rw [hst] at this
      simp at this

/-- C15 on the state after the button press in the initial state and a tick
that reports convergence: `Ifx_BUCK_STATE_RUN` with the converter enabled. -/
theorem output_enabled_iff_witness :
    ∃ s, Reachable ⟨1000, 3000, 2000, 2000, 2000⟩ ⟨100, 100⟩ s ∧
      s.buck_state = Ifx_BUCK_STATE_RUN ∧ s.hw.converter_enabled = true :=
  have h1 := @Reachable.step ⟨1000, 3000, 2000, 2000, 2000⟩ ⟨100, 100⟩ _ _
    (Event.button 0 0 0) Reachable.init rfl
  have h2 := @Reachable.step ⟨1000, 3000, 2000, 2000, 2000⟩ ⟨100, 100⟩ _ _
    (Event.tick 1 0) h1 rfl
  ⟨_, h2, rfl,
    (output_enabled_iff ⟨1000, 3000, 2000, 2000, 2000⟩ ⟨100, 100⟩ _ h2).1.2 (Or.inr (Or.inl rfl))⟩

end PccmBuck
